import Mathlib

/-! # libxvdr `Connection`: pending-call table, receive loop and recording stream

A shallow embedding of `src/libxvdr/src/connection.cpp`.

* The pending-call table `m_queue` (a `std::map<serial, SMessage>`) is an
  association list; `Connection::ReadResult` and the request/response branch
  of `Connection::Action` are functions on it.
* The recording stream (`m_recid`, `m_currentPlayingRecordFrames`,
  `m_currentPlayingRecordBytes`, `m_currentPlayingRecordPosition`) is a record;
  `OpenRecording`, `CloseRecording`, `ReadRecording` and `SeekRecording` are
  functions on it.  What the server answers, and what the `Session` base class
  reports, are arguments of these functions.
* The session settings replayed by `OnReconnect`, the status-message and
  keep-alive parts of `Connection::Action`, and `GetTimersCount` are functions
  that return, next to their result, the host callbacks and requests they
  issue, in order.
* The path `AddTimer` builds from directory and title, and the split of the
  title in `ReadTimerPacket`, are functions on lists of characters.
* `uint32_t`, `uint64_t`, `int` and `long long` values are `Nat`/`Int` with
  explicit reduction modulo `2^32` / `2^64` where the C++ arithmetic wraps.
-/

namespace XVDR

/-! ## Constants of the protocol headers -/

/-- Channel id of replies to requests (`xvdr/command.h`). -/
def XVDR_CHANNEL_REQUEST_RESPONSE : Nat := 1

/-- Return code "success" (`xvdr/command.h`). -/
def XVDR_RET_OK : Nat := 0

/-- The `whence` value of `<stdio.h>` for an absolute seek. -/
def SEEK_SET : Nat := 0

/-- The `whence` value of `<stdio.h>` for a seek relative to the position. -/
def SEEK_CUR : Nat := 1

/-- The `whence` value of `<stdio.h>` for a seek relative to the end. -/
def SEEK_END : Nat := 2

/-- `#define SEEK_POSSIBLE 0x10`: flag used to check if protocol allows seeks. -/
def SEEK_POSSIBLE : Nat := 0x10

/-! ## Machine integers -/

/-- Conversion of a `long long` to `uint64_t`. -/
def toU64 (x : Int) : Nat := (x % 2 ^ 64).toNat

/-- Conversion of a `uint64_t` to `long long`. -/
def toI64 (n : Nat) : Int :=
  if n % 2 ^ 64 < 2 ^ 63 then ((n % 2 ^ 64 : Nat) : Int) else ((n % 2 ^ 64 : Nat) : Int) - 2 ^ 64

/-- Conversion of a `uint32_t` to `int`. -/
def toI32 (n : Nat) : Int :=
  if n % 2 ^ 32 < 2 ^ 31 then ((n % 2 ^ 32 : Nat) : Int) else ((n % 2 ^ 32 : Nat) : Int) - 2 ^ 32

/-! ## Packets and the pending-call table -/

/-- A received packet: channel id, request id (the serial of the request it
answers) and the user data. -/
structure ResponsePacket where
  channelID : Nat
  requestID : Nat
  userData : List Nat
  deriving DecidableEq, Repr

/-- One entry of `m_queue`: `event` is the `CondWait` (true once `Signal()` was
called on it), `pkt` the response slot. -/
structure SMessage where
  event : Bool
  pkt : Option ResponsePacket
  deriving DecidableEq, Repr

/-- The table `m_queue`, a `std::map` from serial to `SMessage`. -/
abbrev SMessages := List (Nat × SMessage)

namespace SMessages

/-- Lookup `m_queue.find(serial)`; `none` stands for `m_queue.end()`. -/
def find : SMessages → Nat → Option SMessage
  | [], _ => none
  | (k, m) :: rest, serial => if k = serial then some m else find rest serial

/-- Removal `m_queue.erase(serial)`. -/
def erase : SMessages → Nat → SMessages
  | [], _ => []
  | (k, m) :: rest, serial =>
    if k = serial then erase rest serial else (k, m) :: erase rest serial

/-- Assignment through `m_queue[serial]`: the key is inserted when it is
absent, and the mapped value is overwritten. -/
def assign : SMessages → Nat → SMessage → SMessages
  | [], serial, m => [(serial, m)]
  | (k, m0) :: rest, serial, m =>
    if k = serial then (k, m) :: rest else (k, m0) :: assign rest serial m

/-- Number of entries, `m_queue.size()`. -/
def size (q : SMessages) : Nat := q.length

end SMessages

/-- The request/response branch of `Connection::Action` (the body of
`if (vresp->getChannelID() == XVDR_CHANNEL_REQUEST_RESPONSE)`): the packet is
stored in the entry found under its request id and the waiter is signalled;
without such an entry the packet is deleted.  The `Bool` tells whether
`delete vresp` ran. -/
def Action_requestResponse (m_queue : SMessages) (vresp : ResponsePacket) : SMessages × Bool :=
  match SMessages.find m_queue vresp.requestID with
  | some message =>
    (SMessages.assign m_queue vresp.requestID { message with pkt := some vresp, event := true },
      false)
  | none => (m_queue, true)

/-- What one received packet does to `m_queue` in `Connection::Action`: only
the request/response branch touches the table. -/
def Action_queue (m_queue : SMessages) (vresp : ResponsePacket) : SMessages :=
  if vresp.channelID = XVDR_CHANNEL_REQUEST_RESPONSE then
    (Action_requestResponse m_queue vresp).1
  else m_queue

/-- The function `Connection::ReadResult` on the table.  `serial` is
`vrp->getSerial()`, `sendMessage` the result of `Session::SendMessage(vrp)`,
and `arrivals` the packets the receive loop dispatches between the
registration of the entry and the moment the caller takes the lock again
(none of them for this serial: the wait times out with an empty slot).
Returns `vresp` and the table left behind. -/
def ReadResult (m_queue : SMessages) (serial : Nat) (sendMessage : Bool)
    (arrivals : List ResponsePacket) : Option ResponsePacket × SMessages :=
  let q1 := SMessages.assign m_queue serial { event := false, pkt := none }
  if sendMessage = false then
    (none, SMessages.erase q1 serial)
  else
    let q2 := arrivals.foldl Action_queue q1
    let vresp := match SMessages.find q2 serial with
      | some message => message.pkt
      | none => none
    (vresp, SMessages.erase q2 serial)

/-- The table after `n` calls of `ReadResult`, one after the other, each sent
and each timing out with nothing dispatched meanwhile. -/
def timedOutCalls (m_queue : SMessages) (serials : List Nat) : SMessages :=
  serials.foldl (fun q serial => (ReadResult q serial true []).2) m_queue

/-! ## The recording stream -/

/-- The members of `Connection` that describe the recording being played. -/
structure RecordingStream where
  m_recid : String
  m_currentPlayingRecordFrames : Nat
  m_currentPlayingRecordBytes : Nat
  m_currentPlayingRecordPosition : Nat
  deriving DecidableEq, Repr

/-- The requests the recording functions hand to `ReadResult` / `ReadSuccess`,
named by opcode, with the fields added to the packet. -/
inductive Request where
  | XVDR_RECSTREAM_OPEN (recid : String)
  | XVDR_RECSTREAM_CLOSE
  | XVDR_RECSTREAM_UPDATE
  | XVDR_RECSTREAM_GETBLOCK (position : Nat) (buf_size : Nat)
  deriving DecidableEq, Repr

/-- What a member function leaves behind: its return value, the members of
the connection, and the requests it issued, in order. -/
structure Outcome (α : Type) where
  ret : α
  state : RecordingStream
  requests : List Request
  deriving DecidableEq, Repr

/-- The fields `OpenRecording` extracts from the reply to
`XVDR_RECSTREAM_OPEN`, in extraction order: `extract_U32` (return code),
`extract_U32` (frames), `extract_U64` (bytes). -/
structure OpenReply where
  returnCode : Nat
  frames : Nat
  bytes : Nat
  deriving DecidableEq, Repr

/-- The function `Connection::OpenRecording`.  `init` is the result of building
the request (`vrp.init` and `vrp.add_String`), `vresp` what `ReadResult`
returned (`none` for `NULL`). -/
def OpenRecording (c : RecordingStream) (recid : String) (init : Bool)
    (vresp : Option OpenReply) : Outcome Bool :=
  if init = false then
    { ret := false, state := c, requests := [] }
  else
    match vresp with
    | none => { ret := false, state := c, requests := [Request.XVDR_RECSTREAM_OPEN recid] }
    | some r =>
      if r.returnCode = XVDR_RET_OK then
        { ret := true
          state :=
            { m_recid := recid
              m_currentPlayingRecordFrames := r.frames
              m_currentPlayingRecordBytes := r.bytes
              m_currentPlayingRecordPosition := 0 }
          requests := [Request.XVDR_RECSTREAM_OPEN recid] }
      else
        { ret := false
          state := { c with m_recid := "" }
          requests := [Request.XVDR_RECSTREAM_OPEN recid] }

/-- The function `Connection::CloseRecording`.  `readSuccess` is what
`ReadSuccess(&vrp)` returns for the close request (false also when no
response came). -/
def CloseRecording (c : RecordingStream) (readSuccess : Bool) : Outcome Bool :=
  if c.m_recid = "" then
    { ret := false, state := c, requests := [] }
  else
    { ret := readSuccess
      state := { c with m_recid := "" }
      requests := [Request.XVDR_RECSTREAM_CLOSE] }

/-- What `ReadRecording` gets from its surroundings: the `Session` status
calls, whether the two request packets could be built, and what `ReadResult`
returned for each (`none` for `NULL`): the extracted `(frames, bytes)` of the
update reply, and the user data of the block reply. -/
structure ReadEnv where
  connectionLost : Bool
  tryReconnect : Bool
  init1 : Bool
  update : Option (Nat × Nat)
  init2 : Bool
  block : Option (List Nat)
  deriving DecidableEq, Repr

/-- What `ReadRecording` leaves behind: `Outcome` and the caller's buffer. -/
structure ReadOutcome where
  ret : Int
  state : RecordingStream
  buf : List Nat
  requests : List Request
  deriving DecidableEq, Repr

/-- The size refresh at the start of `ReadRecording`: the totals are replaced
when the update request got a reply whose values differ. -/
def ReadRecording_update (c : RecordingStream) (env : ReadEnv) : RecordingStream :=
  if env.init1 = true then
    match env.update with
    | some (frames, bytes) =>
      if frames ≠ c.m_currentPlayingRecordFrames ∨ bytes ≠ c.m_currentPlayingRecordBytes then
        { c with m_currentPlayingRecordFrames := frames, m_currentPlayingRecordBytes := bytes }
      else c
    | none => c
  else c

/-- The function `Connection::ReadRecording`.  `buf` is the caller's buffer,
`buf_size` the `uint32_t` argument; `getUserDataLength()` is the length of the
user data; `memcpy(buf, data, length)` overwrites the first `length` bytes of
the buffer. -/
def ReadRecording (c : RecordingStream) (buf : List Nat) (buf_size : Nat)
    (env : ReadEnv) : ReadOutcome :=
  if env.connectionLost = true ∧ env.tryReconnect = false then
    { ret := 1, state := c, buf := buf.set 0 0, requests := [] }
  else if c.m_currentPlayingRecordPosition ≥ c.m_currentPlayingRecordBytes then
    { ret := 0, state := c, buf := buf, requests := [] }
  else
    let c1 := ReadRecording_update c env
    let req1 := if env.init1 = true then [Request.XVDR_RECSTREAM_UPDATE] else []
    if env.init2 = false then
      { ret := 0, state := c1, buf := buf, requests := req1 }
    else
      let req := req1 ++ [Request.XVDR_RECSTREAM_GETBLOCK c1.m_currentPlayingRecordPosition buf_size]
      match env.block with
      | none => { ret := -1, state := c1, buf := buf, requests := req }
      | some data =>
        let length := data.length
        if length > buf_size then
          { ret := 0, state := c1, buf := buf, requests := req }
        else
          { ret := toI32 length
            state :=
              { c1 with
                m_currentPlayingRecordPosition :=
                  (c1.m_currentPlayingRecordPosition + length) % 2 ^ 64 }
            buf := data ++ buf.drop length
            requests := req }

/-- The tail of `Connection::SeekRecording` after the `switch`: the candidate
is refused when it lies beyond the total, and stored otherwise. -/
def SeekRecording_commit (c : RecordingStream) (nextPos : Nat) : Outcome Int :=
  if nextPos > c.m_currentPlayingRecordBytes then
    { ret := -1, state := c, requests := [] }
  else
    { ret := toI64 nextPos
      state := { c with m_currentPlayingRecordPosition := nextPos }
      requests := [] }

/-- The function `Connection::SeekRecording`.  `pos` is the `long long`
offset, `whence` the `uint32_t` selector; `nextPos` is a `uint64_t`. -/
def SeekRecording (c : RecordingStream) (pos : Int) (whence : Nat) : Outcome Int :=
  if whence = SEEK_SET then
    SeekRecording_commit c (toU64 pos)
  else if whence = SEEK_CUR then
    SeekRecording_commit c ((c.m_currentPlayingRecordPosition + toU64 pos) % 2 ^ 64)
  else if whence = SEEK_END then
    SeekRecording_commit c ((c.m_currentPlayingRecordBytes + toU64 pos) % 2 ^ 64)
  else if whence = SEEK_POSSIBLE then
    { ret := 1, state := c, requests := [] }
  else
    { ret := -1, state := c, requests := [] }

/-- One call of a recording function together with what its surroundings
answer. -/
inductive Call where
  | OpenRecording (recid : String) (init : Bool) (vresp : Option OpenReply)
  | CloseRecording (readSuccess : Bool)
  | ReadRecording (buf : List Nat) (buf_size : Nat) (env : ReadEnv)
  | SeekRecording (pos : Int) (whence : Nat)

/-- The members of the connection after one call. -/
def Call.apply (c : RecordingStream) : Call → RecordingStream
  | Call.OpenRecording recid init vresp => (XVDR.OpenRecording c recid init vresp).state
  | Call.CloseRecording readSuccess => (XVDR.CloseRecording c readSuccess).state
  | Call.ReadRecording buf buf_size env => (XVDR.ReadRecording c buf buf_size env).state
  | Call.SeekRecording pos whence => (XVDR.SeekRecording c pos whence).state

/-- The members of the connection after a sequence of calls. -/
def run (c : RecordingStream) (calls : List Call) : RecordingStream :=
  calls.foldl Call.apply c

/-- The mathematical candidate position of a seek: the offset itself, the
position plus the offset, or the total plus the offset. -/
def seekCandidate (c : RecordingStream) (pos : Int) (whence : Nat) : Int :=
  if whence = SEEK_SET then pos
  else if whence = SEEK_CUR then (c.m_currentPlayingRecordPosition : Int) + pos
  else (c.m_currentPlayingRecordBytes : Int) + pos

/-- The server keeps to the size of the recording during one call: in a
`ReadRecording` the refreshed total is not below the position and the block
that comes back ends at or before the refreshed total.  The other calls ask
nothing of the server. -/
def Call.withinTotal (c : RecordingStream) : Call → Bool
  | Call.ReadRecording _ _ env =>
    decide (c.m_currentPlayingRecordPosition
        ≤ (ReadRecording_update c env).m_currentPlayingRecordBytes)
    && (match env.block with
        | some data =>
          decide (c.m_currentPlayingRecordPosition + data.length
            ≤ (ReadRecording_update c env).m_currentPlayingRecordBytes)
        | none => true)
  | _ => true

/-- The server keeps to the size of the recording in every call of a
sequence, each call taken in the state the calls before it left. -/
def withinTotalRun : RecordingStream → List Call → Bool
  | _, [] => true
  | c, call :: rest => Call.withinTotal c call && withinTotalRun (Call.apply c call) rest

/-! ## Host callbacks, session settings and the receive loop -/

/-- The severities of `XVDRNotification` (`xvdr/callbacks.h`). -/
inductive Level where
  | XVDR_INFO
  | XVDR_WARNING
  | XVDR_ERROR
  deriving DecidableEq, Repr

/-- The requests of the session functions, named by opcode, with the fields
added to the packet. -/
inductive SessionRequest where
  | XVDR_ENABLESTATUSINTERFACE (onOff : Bool)
  | XVDR_CHANNELFILTER (fta : Bool) (nativelangonly : Bool) (caids : List Int)
  | XVDR_UPDATECHANNELS (method : Nat)
  | XVDR_PING
  | XVDR_TIMER_GETCOUNT
  deriving DecidableEq, Repr

/-- What a function does that is seen outside the connection, in order: the
callbacks into the host, a request read back on the direct path
(`Session::ReadResult`), a request read back through the pending-call table
(`Connection::ReadResult`). -/
inductive Effect where
  | XVDRNotification (level : Level) (msg : String)
  | XVDRTriggerTimerUpdate
  | XVDRTriggerChannelUpdate
  | XVDRTriggerRecordingUpdate
  | Session_ReadResult (vrp : SessionRequest)
  | ReadResult (vrp : SessionRequest)
  deriving DecidableEq, Repr

/-- The request handed to `direct ? Session::ReadResult(&vrp) : ReadResult(&vrp)`. -/
def readResultVia (direct : Bool) (vrp : SessionRequest) : Effect :=
  if direct = true then Effect.Session_ReadResult vrp else Effect.ReadResult vrp

/-- The members of `Connection` that cache the session settings. -/
structure SessionSettings where
  m_statusinterface : Bool
  m_ftachannels : Bool
  m_nativelang : Bool
  m_caids : List Int
  m_updatechannels : Nat
  deriving DecidableEq, Repr

/-- What a session function leaves behind: return value, cached settings and
effects. -/
structure SessionOutcome (α : Type) where
  ret : α
  state : SessionSettings
  effects : List Effect
  deriving DecidableEq, Repr

/-- What one settings request meets: `init` tells whether the packet could be
built, `vresp` is the return code extracted from the reply (`none` when the
read gave `NULL`). -/
structure SettingEnv where
  init : Bool
  vresp : Option Nat
  deriving DecidableEq, Repr

/-- The function `Connection::EnableStatusInterface`. -/
def EnableStatusInterface (c : SessionSettings) (onOff : Bool) (direct : Bool)
    (env : SettingEnv) : SessionOutcome Bool :=
  if env.init = false then
    { ret := false, state := c, effects := [] }
  else
    match env.vresp with
    | none =>
      { ret := false, state := c
        effects := [readResultVia direct (SessionRequest.XVDR_ENABLESTATUSINTERFACE onOff)] }
    | some ret =>
      if ret = XVDR_RET_OK then
        { ret := true
          state := { c with m_statusinterface := onOff }
          effects := [readResultVia direct (SessionRequest.XVDR_ENABLESTATUSINTERFACE onOff)] }
      else
        { ret := false, state := c
          effects := [readResultVia direct (SessionRequest.XVDR_ENABLESTATUSINTERFACE onOff)] }

/-- The function `Connection::SetUpdateChannels`. -/
def SetUpdateChannels (c : SessionSettings) (method : Nat) (direct : Bool)
    (env : SettingEnv) : SessionOutcome Bool :=
  if env.init = false then
    { ret := false, state := c, effects := [] }
  else
    match env.vresp with
    | none =>
      { ret := false, state := c
        effects := [readResultVia direct (SessionRequest.XVDR_UPDATECHANNELS method)] }
    | some ret =>
      if ret = XVDR_RET_OK then
        { ret := true
          state := { c with m_updatechannels := method }
          effects := [readResultVia direct (SessionRequest.XVDR_UPDATECHANNELS method)] }
      else
        { ret := false, state := c
          effects := [readResultVia direct (SessionRequest.XVDR_UPDATECHANNELS method)] }

/-- The function `Connection::ChannelFilter`. -/
def ChannelFilter (c : SessionSettings) (fta : Bool) (nativelangonly : Bool)
    (caids : List Int) (direct : Bool) (env : SettingEnv) : SessionOutcome Bool :=
  if env.init = false then
    { ret := false, state := c, effects := [] }
  else
    match env.vresp with
    | none =>
      { ret := false, state := c
        effects := [readResultVia direct (SessionRequest.XVDR_CHANNELFILTER fta nativelangonly caids)] }
    | some ret =>
      if ret = XVDR_RET_OK then
        { ret := true
          state := { c with m_ftachannels := fta, m_nativelang := nativelangonly, m_caids := caids }
          effects :=
            [readResultVia direct (SessionRequest.XVDR_CHANNELFILTER fta nativelangonly caids)] }
      else
        { ret := false, state := c
          effects :=
            [readResultVia direct (SessionRequest.XVDR_CHANNELFILTER fta nativelangonly caids)] }

/-- The function `Connection::OnReconnect`.  `XVDRGetLocalizedString` is the
host's string table; the three environments are what the three settings
requests meet, in call order. -/
def OnReconnect (c : SessionSettings) (XVDRGetLocalizedString : Nat → String)
    (envStatus envFilter envUpdate : SettingEnv) : SessionSettings × List Effect :=
  let r1 := EnableStatusInterface c c.m_statusinterface true envStatus
  let r2 := ChannelFilter r1.state r1.state.m_ftachannels r1.state.m_nativelang
    r1.state.m_caids true envFilter
  let r3 := SetUpdateChannels r2.state r2.state.m_updatechannels true envUpdate
  (r3.state,
    [Effect.XVDRNotification Level.XVDR_INFO (XVDRGetLocalizedString 30045)]
      ++ r1.effects ++ r2.effects ++ r3.effects
      ++ [Effect.XVDRTriggerTimerUpdate, Effect.XVDRTriggerRecordingUpdate])

/-- The `XVDR_STATUS_MESSAGE` branch of `Connection::Action`: `type` is the
extracted `uint32_t`, `msgstr` the extracted string. -/
def Action_statusMessage (type : Nat) (msgstr : String) : List Effect :=
  (if type = 2 then [Effect.XVDRNotification Level.XVDR_ERROR msgstr] else [])
    ++ (if type = 1 then [Effect.XVDRNotification Level.XVDR_WARNING msgstr]
        else [Effect.XVDRNotification Level.XVDR_INFO msgstr])

/-- The function `Connection::SendPing`: `init` tells whether the packet
could be built, `vresp` what `Session::ReadResult` gave.  Returns the result
and the requests issued. -/
def SendPing (init : Bool) (vresp : Option ResponsePacket) : Bool × List Effect :=
  if init = false then (false, [])
  else (vresp.isSome, [Effect.Session_ReadResult SessionRequest.XVDR_PING])

/-- The function `Connection::SignalConnectionLost` on the lost flag of the
session: nothing happens while aborting. -/
def SignalConnectionLost (m_aborting : Bool) (connectionLost : Bool) : Bool :=
  if m_aborting = true then connectionLost else true

/-- What the keep-alive block of `Connection::Action` leaves behind: the local
`lastPing`, the lost flag of the session, whether `SendPing()` was called, and
the requests issued. -/
structure KeepAlive where
  lastPing : Nat
  connectionLost : Bool
  pinged : Bool
  effects : List Effect
  deriving DecidableEq, Repr

/-- The keep-alive block of one iteration of `Connection::Action`, from
`if ((vresp == NULL) && (time(NULL) - lastPing) > 5)` to its end.  `vresp` is
what `Session::ReadMessage()` gave, `now` is `time(NULL)` (a 64-bit `time_t`),
`lastPing` the `uint32_t` local; `pingInit` and `pingReply` are what
`SendPing` meets. -/
def Action_keepAlive (vresp : Option ResponsePacket) (now : Nat) (lastPing : Nat)
    (m_queue : SMessages) (m_aborting : Bool) (connectionLost : Bool)
    (pingInit : Bool) (pingReply : Option ResponsePacket) : KeepAlive :=
  if vresp = none ∧ (now : Int) - (lastPing : Int) > 5 then
    if m_queue = [] then
      let ping := SendPing pingInit pingReply
      { lastPing := now % 2 ^ 32
        connectionLost :=
          if ping.1 = false then SignalConnectionLost m_aborting connectionLost
          else connectionLost
        pinged := true
        effects := ping.2 }
    else
      { lastPing := lastPing, connectionLost := connectionLost, pinged := false, effects := [] }
  else
    { lastPing := lastPing, connectionLost := connectionLost, pinged := false, effects := [] }

/-- The function `Connection::GetTimersCount`.  `m_timercount` is the cached
count, an `int` like the return value; `connectionLost` is
`ConnectionLost()`, `init` tells whether the packet could be built, `vresp` is
the `uint32_t` extracted from the reply (`none` when `ReadResult` gave
`NULL`).  Returns the return value, the cache and the requests issued. -/
def GetTimersCount (m_timercount : Int) (connectionLost : Bool) (init : Bool)
    (vresp : Option Nat) : Int × Int × List Effect :=
  if connectionLost = true then (m_timercount, m_timercount, [])
  else if init = false then (-1, m_timercount, [])
  else
    match vresp with
    | none => (m_timercount, m_timercount, [Effect.ReadResult SessionRequest.XVDR_TIMER_GETCOUNT])
    | some count =>
      (toI32 count, toI32 count, [Effect.ReadResult SessionRequest.XVDR_TIMER_GETCOUNT])

/-! ## Timer titles

A string is the list of its characters; for a C string the terminating NUL is
not part of the list. -/

/-- The path `Connection::AddTimer` builds from the directory and the title of
the timer and sends as the title of the new timer; `none` when the path is
empty and the function gives up. -/
def AddTimer_path (directory title : List Char) : Option (List Char) :=
  let path : List Char :=
    if directory ≠ [] then
      let p := directory
      let p :=
        if p = ['/'] then []
        else if p.length > 1 then (if p.head? = some '/' then p.drop 1 else p)
        else p
      if p.length > 0 ∧ p.getLast? ≠ some '/' then p ++ ['/'] else p
    else []
  let path := if title ≠ [] then path ++ title else path
  let path := path.map (fun ch => if ch = '/' ∨ ch = '\\' then '~' else ch)
  if path = [] then none else some path

/-- The C function `strrchr`: the index of the last occurrence of `ch`. -/
def strrchr : List Char → Char → Option Nat
  | [], _ => none
  | c :: rest, ch =>
    match strrchr rest ch with
    | some i => some (i + 1)
    | none => if c = ch then some 0 else none

/-- The end of `Connection::ReadTimerPacket`: the extracted title is split at
its last `~` into `(timer_title, timer_directory)`, and the `~` of the
directory become `/`. -/
def ReadTimerPacket_title (title : List Char) : List Char × List Char :=
  match strrchr title '~' with
  | none => (title, [])
  | some p =>
    (title.drop (p + 1), (title.take p).map (fun c => if c = '~' then '/' else c))

end XVDR

namespace XVDR

/-! ## Lemmas on the table -/

theorem SMessages.find_assign_self (q : SMessages) (serial : Nat) (m : SMessage) :
    SMessages.find (SMessages.assign q serial m) serial = some m := by
  induction q with
  | nil => simp [SMessages.assign, SMessages.find]
  | cons e rest ih =>
    obtain ⟨k, m0⟩ := e
    by_cases hk : k = serial
    · simp [SMessages.assign, SMessages.find, hk]
    · simp [SMessages.assign, SMessages.find, hk, ih]

theorem SMessages.find_assign_ne (q : SMessages) (serial k : Nat) (m : SMessage)
    (hne : k ≠ serial) :
    SMessages.find (SMessages.assign q serial m) k = SMessages.find q k := by
  have hne2 : ¬ serial = k := fun h => hne h.symm
  induction q with
  | nil => simp [SMessages.assign, SMessages.find, hne2]
  | cons e rest ih =>
    obtain ⟨k0, m0⟩ := e
    by_cases hk : k0 = serial
    · have h : ¬ k0 = k := fun h => hne (h.symm.trans hk)
      simp [SMessages.assign, SMessages.find, hk, h, hne2]
    · by_cases hk2 : k0 = k
      · subst hk2
        simp [SMessages.assign, SMessages.find, hne]
      · simp [SMessages.assign, SMessages.find, hk, hk2, ih]

theorem SMessages.find_erase_self (q : SMessages) (serial : Nat) :
    SMessages.find (SMessages.erase q serial) serial = none := by
  induction q with
  | nil => simp [SMessages.erase, SMessages.find]
  | cons e rest ih =>
    obtain ⟨k, m0⟩ := e
    by_cases hk : k = serial
    · simp [SMessages.erase, hk, ih]
    · simp [SMessages.erase, SMessages.find, hk, ih]

theorem SMessages.find_erase_ne (q : SMessages) (serial k : Nat) (hne : k ≠ serial) :
    SMessages.find (SMessages.erase q serial) k = SMessages.find q k := by
  have hne2 : ¬ serial = k := fun h => hne h.symm
  induction q with
  | nil => simp [SMessages.erase, SMessages.find]
  | cons e rest ih =>
    obtain ⟨k0, m0⟩ := e
    by_cases hk : k0 = serial
    · have h : ¬ k0 = k := fun h => hne (h.symm.trans hk)
      simp [SMessages.erase, SMessages.find, hk, hne2, ih]
    · by_cases hk2 : k0 = k
      · subst hk2
        simp [SMessages.erase, SMessages.find, hne]
      · simp [SMessages.erase, SMessages.find, hk, hk2, ih]

theorem SMessages.erase_assign_of_find_none (q : SMessages) (serial : Nat) (m : SMessage)
    (hfresh : SMessages.find q serial = none) :
    SMessages.erase (SMessages.assign q serial m) serial = q := by
  induction q with
  | nil => simp [SMessages.assign, SMessages.erase]
  | cons e rest ih =>
    obtain ⟨k, m0⟩ := e
    by_cases hk : k = serial
    · simp [SMessages.find, hk] at hfresh
    · simp only [SMessages.find, hk, if_false] at hfresh
      simp [SMessages.assign, SMessages.erase, hk, ih hfresh]

theorem Action_queue_find_ne (q : SMessages) (vresp : ResponsePacket) (k : Nat)
    (hne : vresp.channelID = XVDR_CHANNEL_REQUEST_RESPONSE → k ≠ vresp.requestID) :
    SMessages.find (Action_queue q vresp) k = SMessages.find q k := by
  unfold Action_queue
  by_cases hc : vresp.channelID = XVDR_CHANNEL_REQUEST_RESPONSE
  · rw [if_pos hc]
    unfold Action_requestResponse
    cases hf : SMessages.find q vresp.requestID with
    | none => rfl
    | some message => exact SMessages.find_assign_ne q _ k _ (hne hc)
  · rw [if_neg hc]

theorem Action_queue_foldl_find_ne (arrivals : List ResponsePacket) (q : SMessages) (k : Nat)
    (hne : ∀ r ∈ arrivals, r.channelID = XVDR_CHANNEL_REQUEST_RESPONSE → k ≠ r.requestID) :
    SMessages.find (arrivals.foldl Action_queue q) k = SMessages.find q k := by
  induction arrivals generalizing q with
  | nil => rfl
  | cons r rest ih =>
    rw [List.foldl_cons, ih _ (fun x hx => hne x (List.mem_cons_of_mem _ hx))]
    exact Action_queue_find_ne q r k (hne r (List.mem_cons_self _ _))

theorem ReadResult_timeout_fresh (q : SMessages) (serial : Nat)
    (hfresh : SMessages.find q serial = none) :
    (ReadResult q serial true []).2 = q := by
  simp [ReadResult, SMessages.erase_assign_of_find_none q serial _ hfresh]

theorem timedOutCalls_fresh (serials : List Nat) (q : SMessages)
    (hfresh : ∀ x ∈ serials, SMessages.find q x = none) :
    timedOutCalls q serials = q := by
  induction serials with
  | nil => rfl
  | cons x rest ih =>
    unfold timedOutCalls at ih ⊢
    rw [List.foldl_cons, ReadResult_timeout_fresh q x (hfresh x (List.mem_cons_self _ _))]
    exact ih (fun y hy => hfresh y (List.mem_cons_of_mem _ hy))

theorem SMessages.size_erase_assign_le (q : SMessages) (serial : Nat) (m : SMessage) :
    SMessages.size (SMessages.erase (SMessages.assign q serial m) serial) ≤ SMessages.size q := by
  induction q with
  | nil => simp [SMessages.assign, SMessages.erase, SMessages.size]
  | cons e rest ih =>
    obtain ⟨k, m0⟩ := e
    simp only [SMessages.size] at ih ⊢
    by_cases hk : k = serial
    · subst hk
      have h : (SMessages.erase rest k).length ≤ rest.length := by
        clear ih
        induction rest with
        | nil => simp [SMessages.erase]
        | cons e2 rest2 ih2 =>
          obtain ⟨k2, m2⟩ := e2
          by_cases hk2 : k2 = k
          · simp only [SMessages.erase, hk2, if_true, List.length_cons]
            omega
          · simp only [SMessages.erase, hk2, if_false, List.length_cons]
            omega
      simp only [SMessages.assign, SMessages.erase, if_true, List.length_cons]
      omega
    · simp only [SMessages.assign, SMessages.erase, hk, if_false, List.length_cons]
      omega

theorem timedOutCalls_size_le (serials : List Nat) (q : SMessages) :
    SMessages.size (timedOutCalls q serials) ≤ SMessages.size q := by
  induction serials generalizing q with
  | nil => exact Nat.le_refl _
  | cons x rest ih =>
    unfold timedOutCalls at ih ⊢
    rw [List.foldl_cons]
    refine Nat.le_trans (ih _) ?_
    simpa [ReadResult] using SMessages.size_erase_assign_le q x { event := false, pkt := none }

theorem Action_queue_find_ne_none (q : SMessages) (vresp : ResponsePacket) (k : Nat)
    (hk : SMessages.find q k ≠ none) : SMessages.find (Action_queue q vresp) k ≠ none := by
  by_cases hne : k = vresp.requestID
  · unfold Action_queue
    by_cases hc : vresp.channelID = XVDR_CHANNEL_REQUEST_RESPONSE
    · rw [if_pos hc]
      unfold Action_requestResponse
      cases hf : SMessages.find q vresp.requestID with
      | none => exact absurd (hne ▸ hf) hk
      | some message =>
        rw [hne]
        simp [SMessages.find_assign_self]
    · rw [if_neg hc]
      exact hk
  · rw [Action_queue_find_ne q vresp k (fun _ => hne)]
    exact hk

theorem Action_queue_foldl_find_ne_none (arrivals : List ResponsePacket) (q : SMessages)
    (k : Nat) (hk : SMessages.find q k ≠ none) :
    SMessages.find (arrivals.foldl Action_queue q) k ≠ none := by
  induction arrivals generalizing q with
  | nil => exact hk
  | cons r rest ih =>
    rw [List.foldl_cons]
    exact ih _ (Action_queue_find_ne_none q r k hk)

/-! ## The pending-call table: `ReadResult` and the receive loop -/

/-- C1: whatever the table, the serial and the outcome (send fails; sent and
nothing dispatched for it; sent and responses dispatched for it), the table
`ReadResult` leaves behind has no entry for the serial and every entry under
another key is as before.  A run of timed-out calls, one after the other,
never grows the table; when their serials are not outstanding in the table
beforehand (a serial is unique while outstanding; a serial may come again
later in the run), the table afterwards is the same as before, so of the same
size; from the empty table this holds for every run. -/
theorem ReadResult_leaves_no_entry (q : SMessages) (serial : Nat) (sendMessage : Bool)
    (arrivals : List ResponsePacket) (serials : List Nat)
    (haddr : ∀ r ∈ arrivals,
      r.channelID = XVDR_CHANNEL_REQUEST_RESPONSE → r.requestID = serial) :
    SMessages.find (ReadResult q serial sendMessage arrivals).2 serial = none
    ∧ (∀ k, k ≠ serial →
        SMessages.find (ReadResult q serial sendMessage arrivals).2 k = SMessages.find q k)
    ∧ SMessages.size (timedOutCalls q serials) ≤ SMessages.size q
    ∧ ((∀ x ∈ serials, SMessages.find q x = none) →
        timedOutCalls q serials = q
        ∧ SMessages.size (timedOutCalls q serials) = SMessages.size q)
    ∧ (timedOutCalls [] serials = []
        ∧ SMessages.size (timedOutCalls [] serials) = SMessages.size []) := by
  refine ⟨?_, ?_, timedOutCalls_size_le serials q, ?_, ?_⟩
  · cases sendMessage <;> simp [ReadResult, SMessages.find_erase_self]
  · intro k hk
    cases sendMessage
    · simp [ReadResult, SMessages.find_erase_ne _ _ _ hk, SMessages.find_assign_ne _ _ _ _ hk]
    · have h := Action_queue_foldl_find_ne arrivals
        (SMessages.assign q serial { event := false, pkt := none }) k
        (fun r hr hc heq => hk (heq.trans (haddr r hr hc)))
      simp [ReadResult, SMessages.find_erase_ne _ _ _ hk, h,
        SMessages.find_assign_ne _ _ _ _ hk]
  · intro hfresh
    rw [timedOutCalls_fresh serials q hfresh]
    exact ⟨rfl, rfl⟩
  · rw [timedOutCalls_fresh serials [] (fun _ _ => rfl)]
    exact ⟨rfl, rfl⟩

/-- C1, witness: a table with an entry under 3, a call with serial 7 that is
answered, and three timed-out calls with serials 8, 9 and 8 again. -/
theorem ReadResult_leaves_no_entry_witness :
    SMessages.find (ReadResult [(3, { event := false, pkt := none })] 7 true
        [{ channelID := 1, requestID := 7, userData := [1] }]).2 7 = none
    ∧ SMessages.find (ReadResult [(3, { event := false, pkt := none })] 7 true
        [{ channelID := 1, requestID := 7, userData := [1] }]).2 3
      = some { event := false, pkt := none }
    ∧ SMessages.size (timedOutCalls [(3, { event := false, pkt := none })] [8, 9, 8])
        = SMessages.size [(3, { event := false, pkt := none })] :=
  have h := ReadResult_leaves_no_entry [(3, { event := false, pkt := none })] 7 true
    [{ channelID := 1, requestID := 7, userData := [1] }] [8, 9, 8] (by decide)
  ⟨h.1, h.2.1 3 (by decide), (h.2.2.2.1 (by decide)).2⟩

/-- C2, counterexample: the entry under serial 7 already holds the response
with user data `[1]`; a second response with serial 7 is not deleted, and the
slot then holds the second response. -/
theorem Action_second_response_overwrites :
    Action_requestResponse
        [(7, { event := true, pkt := some { channelID := 1, requestID := 7, userData := [1] } })]
        { channelID := 1, requestID := 7, userData := [2] }
      = ([(7, { event := true,
                pkt := some { channelID := 1, requestID := 7, userData := [2] } })], false)
    ∧ (ReadResult [] 7 true
        [{ channelID := 1, requestID := 7, userData := [1] },
         { channelID := 1, requestID := 7, userData := [2] }]).1
      = some { channelID := 1, requestID := 7, userData := [2] } := by
  decide

/-- C2, amended: a response whose serial has no entry in the table is deleted
and the table stays as it is.  A response whose serial has an entry is never
deleted: it is stored in the slot of that entry, whatever the slot held, the
waiter is signalled, and the other entries stay as they are.  So the caller
of `ReadResult` gets the last response dispatched for its serial while the
entry was registered. -/
theorem Action_requestResponse_stores_latest (q : SMessages) (vresp : ResponsePacket)
    (serial : Nat) (arrivals : List ResponsePacket) :
    (SMessages.find q vresp.requestID = none → Action_requestResponse q vresp = (q, true))
    ∧ (∀ message, SMessages.find q vresp.requestID = some message →
        (Action_requestResponse q vresp).2 = false
        ∧ SMessages.find (Action_requestResponse q vresp).1 vresp.requestID
            = some { event := true, pkt := some vresp }
        ∧ ∀ k, k ≠ vresp.requestID →
            SMessages.find (Action_requestResponse q vresp).1 k = SMessages.find q k)
    ∧ (vresp.channelID = XVDR_CHANNEL_REQUEST_RESPONSE → vresp.requestID = serial →
        (ReadResult q serial true (arrivals ++ [vresp])).1 = some vresp) := by
  refine ⟨?_, ?_, ?_⟩
  · intro hnone
    simp [Action_requestResponse, hnone]
  · intro message hsome
    refine ⟨?_, ?_, ?_⟩
    · simp [Action_requestResponse, hsome]
    · simp [Action_requestResponse, hsome, SMessages.find_assign_self]
    · intro k hk
      simp [Action_requestResponse, hsome, SMessages.find_assign_ne _ _ _ _ hk]
  · intro hc hs
    have hreg : SMessages.find (arrivals.foldl Action_queue
        (SMessages.assign q serial { event := false, pkt := none })) serial ≠ none :=
      Action_queue_foldl_find_ne_none arrivals _ serial
        (by rw [SMessages.find_assign_self]; exact Option.some_ne_none _)
    obtain ⟨message, hm⟩ := Option.ne_none_iff_exists'.mp hreg
    simp [ReadResult, List.foldl_append, Action_queue, hc, Action_requestResponse, hs, hm,
      SMessages.find_assign_self]

/-- C2, witness: the table holds an entry under 7 that is already filled. -/
theorem Action_requestResponse_stores_latest_witness :
    SMessages.find (Action_requestResponse
        [(7, { event := true, pkt := some { channelID := 1, requestID := 7, userData := [1] } })]
        { channelID := 1, requestID := 7, userData := [2] }).1 7
      = some { event := true, pkt := some { channelID := 1, requestID := 7, userData := [2] } }
    ∧ (ReadResult
        [(7, { event := true, pkt := some { channelID := 1, requestID := 7, userData := [1] } })]
        7 true
        ([{ channelID := 1, requestID := 7, userData := [1] }]
          ++ [{ channelID := 1, requestID := 7, userData := [2] }])).1
      = some { channelID := 1, requestID := 7, userData := [2] } :=
  have h := Action_requestResponse_stores_latest
    [(7, { event := true, pkt := some { channelID := 1, requestID := 7, userData := [1] } })]
    { channelID := 1, requestID := 7, userData := [2] } 7
    [{ channelID := 1, requestID := 7, userData := [1] }]
  ⟨(h.2.1 { event := true, pkt := some { channelID := 1, requestID := 7, userData := [1] } }
      (by decide)).2.1,
    h.2.2 (by decide) (by decide)⟩

/-! ## The recording stream: seeking -/

/-- C3, counterexample: with total length `2^64 - 1` and position 5, a seek
of `+1` from the end has a candidate beyond the total, yet it is accepted and
moves the position to 0; and an absolute seek to `-1` has a negative
candidate, yet it moves the position to `2^64 - 1`. -/
theorem SeekRecording_wraps_at_large_total :
    (seekCandidate
        { m_recid := "r", m_currentPlayingRecordFrames := 0,
          m_currentPlayingRecordBytes := 2 ^ 64 - 1, m_currentPlayingRecordPosition := 5 }
        1 SEEK_END > ((2 ^ 64 - 1 : Nat) : Int)
      ∧ SeekRecording
          { m_recid := "r", m_currentPlayingRecordFrames := 0,
            m_currentPlayingRecordBytes := 2 ^ 64 - 1, m_currentPlayingRecordPosition := 5 }
          1 SEEK_END
        = { ret := 0
            state :=
              { m_recid := "r", m_currentPlayingRecordFrames := 0,
                m_currentPlayingRecordBytes := 2 ^ 64 - 1, m_currentPlayingRecordPosition := 0 }
            requests := [] })
    ∧ (seekCandidate
        { m_recid := "r", m_currentPlayingRecordFrames := 0,
          m_currentPlayingRecordBytes := 2 ^ 64 - 1, m_currentPlayingRecordPosition := 5 }
        (-1) SEEK_SET < 0
      ∧ SeekRecording
          { m_recid := "r", m_currentPlayingRecordFrames := 0,
            m_currentPlayingRecordBytes := 2 ^ 64 - 1, m_currentPlayingRecordPosition := 5 }
          (-1) SEEK_SET
        = { ret := -1
            state :=
              { m_recid := "r", m_currentPlayingRecordFrames := 0,
                m_currentPlayingRecordBytes := 2 ^ 64 - 1,
                m_currentPlayingRecordPosition := 2 ^ 64 - 1 }
            requests := [] }) := by
  decide

/-- C3, amended: when the total length and the position are both below
`2^63`, a seek with `whence` in `SEEK_SET`, `SEEK_CUR`, `SEEK_END` and a
`long long` offset whose candidate position is beyond the total or negative
returns -1 and leaves the recording id, the position and both totals as they
were. -/
theorem SeekRecording_rejects_out_of_range (c : RecordingStream) (pos : Int) (whence : Nat)
    (hbytes : c.m_currentPlayingRecordBytes < 2 ^ 63)
    (hposition : c.m_currentPlayingRecordPosition < 2 ^ 63)
    (hlo : -2 ^ 63 ≤ pos) (hhi : pos < 2 ^ 63)
    (hwhence : whence = SEEK_SET ∨ whence = SEEK_CUR ∨ whence = SEEK_END)
    (hcand : seekCandidate c pos whence > (c.m_currentPlayingRecordBytes : Int)
      ∨ seekCandidate c pos whence < 0) :
    SeekRecording c pos whence = { ret := -1, state := c, requests := [] } := by
  have hcommit : ∀ nextPos : Nat, nextPos > c.m_currentPlayingRecordBytes →
      SeekRecording_commit c nextPos = { ret := -1, state := c, requests := [] } := by
    intro nextPos h
    simp [SeekRecording_commit, h]
  rcases hwhence with h | h | h
  · subst h
    simp only [seekCandidate, SEEK_SET, if_true] at hcand
    simp only [SeekRecording, SEEK_SET, if_true]
    apply hcommit
    unfold toU64
    omega
  · subst h
    simp only [seekCandidate, SEEK_SET, SEEK_CUR, Nat.succ_ne_zero, if_false, if_true,
      one_ne_zero] at hcand
    simp only [SeekRecording, SEEK_SET, SEEK_CUR, one_ne_zero, if_false, if_true]
    apply hcommit
    unfold toU64
    omega
  · subst h
    have h20 : ¬ (2 : Nat) = 0 := by decide
    have h21 : ¬ (2 : Nat) = 1 := by decide
    simp only [seekCandidate, SEEK_SET, SEEK_CUR, SEEK_END, h20, h21, if_false] at hcand
    simp only [SeekRecording, SEEK_SET, SEEK_CUR, SEEK_END, h20, h21, if_false, if_true]
    apply hcommit
    unfold toU64
    omega

/-- C3, witness: total 2000, position 500; a seek of `+1` from the end. -/
theorem SeekRecording_rejects_out_of_range_witness :
    SeekRecording
        { m_recid := "42", m_currentPlayingRecordFrames := 10,
          m_currentPlayingRecordBytes := 2000, m_currentPlayingRecordPosition := 500 }
        1 SEEK_END
      = { ret := -1
          state :=
            { m_recid := "42", m_currentPlayingRecordFrames := 10,
              m_currentPlayingRecordBytes := 2000, m_currentPlayingRecordPosition := 500 }
          requests := [] } :=
  SeekRecording_rejects_out_of_range
    { m_recid := "42", m_currentPlayingRecordFrames := 10,
      m_currentPlayingRecordBytes := 2000, m_currentPlayingRecordPosition := 500 }
    1 SEEK_END (by decide) (by decide) (by decide) (by decide) (by decide) (by decide)

/-- C4: for `0 ≤ x ≤ L`, with `x` a `long long`, an absolute seek to `x` sets
the position to `x`, returns `x`, and leaves the recording id and both totals
as they were. -/
theorem SeekRecording_set_in_range (c : RecordingStream) (x : Int)
    (h0 : 0 ≤ x) (hle : x ≤ (c.m_currentPlayingRecordBytes : Int)) (hx : x < 2 ^ 63) :
    SeekRecording c x SEEK_SET
      = { ret := x
          state := { c with m_currentPlayingRecordPosition := x.toNat }
          requests := [] } := by
  have hu : toU64 x = x.toNat := by
    unfold toU64
    omega
  have hnot : ¬ x.toNat > c.m_currentPlayingRecordBytes := by omega
  have hi : toI64 x.toNat = x := by
    unfold toI64
    split <;> omega
  simp only [SeekRecording, SEEK_SET, if_true, hu, SeekRecording_commit, hnot, if_false, hi]

/-- C4, witness: total 2000, position 500; an absolute seek to 2000. -/
theorem SeekRecording_set_in_range_witness :
    SeekRecording
        { m_recid := "42", m_currentPlayingRecordFrames := 10,
          m_currentPlayingRecordBytes := 2000, m_currentPlayingRecordPosition := 500 }
        2000 SEEK_SET
      = { ret := 2000
          state :=
            { m_recid := "42", m_currentPlayingRecordFrames := 10,
              m_currentPlayingRecordBytes := 2000, m_currentPlayingRecordPosition := 2000 }
          requests := [] } :=
  SeekRecording_set_in_range
    { m_recid := "42", m_currentPlayingRecordFrames := 10,
      m_currentPlayingRecordBytes := 2000, m_currentPlayingRecordPosition := 500 }
    2000 (by decide) (by decide) (by decide)

/-- C5: the probe `SeekRecording(offset, SEEK_POSSIBLE)` returns 1, issues no
request and leaves the recording id, the position and both totals as they
were, for every state and every offset. -/
theorem SeekRecording_possible (c : RecordingStream) (pos : Int) :
    SeekRecording c pos SEEK_POSSIBLE = { ret := 1, state := c, requests := [] } := by
  simp [SeekRecording, SEEK_POSSIBLE, SEEK_SET, SEEK_CUR, SEEK_END]

/-! ## The recording stream: position and total -/

theorem ReadRecording_update_position (c : RecordingStream) (env : ReadEnv) :
    (ReadRecording_update c env).m_currentPlayingRecordPosition
      = c.m_currentPlayingRecordPosition := by
  unfold ReadRecording_update
  split
  · split
    · split <;> rfl
    · rfl
  · rfl

theorem ReadRecording_update_recid (c : RecordingStream) (env : ReadEnv) :
    (ReadRecording_update c env).m_recid = c.m_recid := by
  unfold ReadRecording_update
  split
  · split
    · split <;> rfl
    · rfl
  · rfl

theorem SeekRecording_commit_le (c : RecordingStream) (nextPos : Nat)
    (hinv : c.m_currentPlayingRecordPosition ≤ c.m_currentPlayingRecordBytes) :
    (SeekRecording_commit c nextPos).state.m_currentPlayingRecordPosition
      ≤ (SeekRecording_commit c nextPos).state.m_currentPlayingRecordBytes := by
  unfold SeekRecording_commit
  split
  · exact hinv
  · simp only
    omega

theorem SeekRecording_le (c : RecordingStream) (pos : Int) (whence : Nat)
    (hinv : c.m_currentPlayingRecordPosition ≤ c.m_currentPlayingRecordBytes) :
    (SeekRecording c pos whence).state.m_currentPlayingRecordPosition
      ≤ (SeekRecording c pos whence).state.m_currentPlayingRecordBytes := by
  unfold SeekRecording
  split
  · exact SeekRecording_commit_le c _ hinv
  · split
    · exact SeekRecording_commit_le c _ hinv
    · split
      · exact SeekRecording_commit_le c _ hinv
      · split <;> exact hinv

theorem OpenRecording_le (c : RecordingStream) (recid : String) (init : Bool)
    (vresp : Option OpenReply)
    (hinv : c.m_currentPlayingRecordPosition ≤ c.m_currentPlayingRecordBytes) :
    (OpenRecording c recid init vresp).state.m_currentPlayingRecordPosition
      ≤ (OpenRecording c recid init vresp).state.m_currentPlayingRecordBytes := by
  unfold OpenRecording
  split
  · exact hinv
  · cases vresp with
    | none => exact hinv
    | some r =>
      simp only
      split
      · exact Nat.zero_le _
      · exact hinv

theorem OpenRecording_success_position (c : RecordingStream) (recid : String) (init : Bool)
    (vresp : Option OpenReply) (hopen : (OpenRecording c recid init vresp).ret = true) :
    (OpenRecording c recid init vresp).state.m_currentPlayingRecordPosition = 0 := by
  unfold OpenRecording at hopen ⊢
  split at hopen
  · simp at hopen
  · rename_i hinit
    rw [if_neg hinit]
    cases vresp with
    | none => simp at hopen
    | some r =>
      simp only at hopen ⊢
      split at hopen
      · rename_i hok
        rw [if_pos hok]
      · simp at hopen

theorem CloseRecording_le (c : RecordingStream) (readSuccess : Bool)
    (hinv : c.m_currentPlayingRecordPosition ≤ c.m_currentPlayingRecordBytes) :
    (CloseRecording c readSuccess).state.m_currentPlayingRecordPosition
      ≤ (CloseRecording c readSuccess).state.m_currentPlayingRecordBytes := by
  unfold CloseRecording
  split <;> exact hinv

theorem ReadRecording_le (c : RecordingStream) (buf : List Nat) (buf_size : Nat)
    (env : ReadEnv)
    (hinv : c.m_currentPlayingRecordPosition ≤ c.m_currentPlayingRecordBytes)
    (hwithin : Call.withinTotal c (Call.ReadRecording buf buf_size env) = true) :
    (ReadRecording c buf buf_size env).state.m_currentPlayingRecordPosition
      ≤ (ReadRecording c buf buf_size env).state.m_currentPlayingRecordBytes := by
  have hp := ReadRecording_update_position c env
  simp only [Call.withinTotal, Bool.and_eq_true, decide_eq_true_eq] at hwithin
  obtain ⟨htotal, hblock⟩ := hwithin
  unfold ReadRecording
  split
  · exact hinv
  · split
    · exact hinv
    · simp only
      split
      · rw [hp]
        exact htotal
      · cases hb : env.block with
        | none =>
          simp only
          rw [hp]
          exact htotal
        | some data =>
          rw [hb] at hblock
          simp only [decide_eq_true_eq] at hblock
          simp only
          split
          · rw [hp]
            exact htotal
          · simp only
            rw [hp]
            exact Nat.le_trans (Nat.mod_le _ _) hblock

theorem Call.apply_le (c : RecordingStream) (call : Call)
    (hinv : c.m_currentPlayingRecordPosition ≤ c.m_currentPlayingRecordBytes)
    (hwithin : Call.withinTotal c call = true) :
    (Call.apply c call).m_currentPlayingRecordPosition
      ≤ (Call.apply c call).m_currentPlayingRecordBytes := by
  cases call with
  | OpenRecording recid init vresp => exact OpenRecording_le c recid init vresp hinv
  | CloseRecording readSuccess => exact CloseRecording_le c readSuccess hinv
  | ReadRecording buf buf_size env => exact ReadRecording_le c buf buf_size env hinv hwithin
  | SeekRecording pos whence => exact SeekRecording_le c pos whence hinv

theorem run_le (calls : List Call) (c : RecordingStream)
    (hinv : c.m_currentPlayingRecordPosition ≤ c.m_currentPlayingRecordBytes)
    (hwithin : withinTotalRun c calls = true) :
    (run c calls).m_currentPlayingRecordPosition ≤ (run c calls).m_currentPlayingRecordBytes := by
  induction calls generalizing c with
  | nil => exact hinv
  | cons call rest ih =>
    simp only [withinTotalRun, Bool.and_eq_true] at hwithin
    unfold run at ih ⊢
    rw [List.foldl_cons]
    exact ih _ (Call.apply_le c call hinv hwithin.1) hwithin.2

/-- C6, counterexample: after a successful open with total 2, a read into a
buffer of 4 that is answered with a block of 3 bytes leaves position 3 above
total 2; and after a successful open with total 20, a read of 3 bytes followed
by a read whose size update reports total 1 leaves position 3 above total 1. -/
theorem position_exceeds_total :
    ((OpenRecording
          { m_recid := "", m_currentPlayingRecordFrames := 0,
            m_currentPlayingRecordBytes := 0, m_currentPlayingRecordPosition := 0 }
          "42" true (some { returnCode := 0, frames := 10, bytes := 2 })).ret = true
      ∧ run
          (OpenRecording
            { m_recid := "", m_currentPlayingRecordFrames := 0,
              m_currentPlayingRecordBytes := 0, m_currentPlayingRecordPosition := 0 }
            "42" true (some { returnCode := 0, frames := 10, bytes := 2 })).state
          [Call.ReadRecording [0, 0, 0, 0] 4
            { connectionLost := false, tryReconnect := false, init1 := true, update := none,
              init2 := true, block := some [1, 2, 3] }]
        = { m_recid := "42", m_currentPlayingRecordFrames := 10,
            m_currentPlayingRecordBytes := 2, m_currentPlayingRecordPosition := 3 })
    ∧ run
        (OpenRecording
          { m_recid := "", m_currentPlayingRecordFrames := 0,
            m_currentPlayingRecordBytes := 0, m_currentPlayingRecordPosition := 0 }
          "42" true (some { returnCode := 0, frames := 10, bytes := 20 })).state
        [Call.ReadRecording [0, 0, 0, 0] 4
            { connectionLost := false, tryReconnect := false, init1 := true, update := none,
              init2 := true, block := some [1, 2, 3] },
          Call.ReadRecording [0, 0, 0, 0] 4
            { connectionLost := false, tryReconnect := false, init1 := true,
              update := some (10, 1), init2 := true, block := none }]
      = { m_recid := "42", m_currentPlayingRecordFrames := 10,
          m_currentPlayingRecordBytes := 1, m_currentPlayingRecordPosition := 3 } := by
  decide

/-- C6, amended: in every state reached from a successful `OpenRecording` by
any sequence of `OpenRecording`, `ReadRecording`, `SeekRecording` and
`CloseRecording` calls in which the server keeps to the size of the recording
(each size update of a read reports a total not below the position, and each
block ends at or before the refreshed total), `0 ≤ position ≤ total bytes`. -/
theorem position_le_total_of_withinTotal (c0 : RecordingStream) (recid : String) (init : Bool)
    (vresp : Option OpenReply) (calls : List Call)
    (hopen : (OpenRecording c0 recid init vresp).ret = true)
    (hwithin : withinTotalRun (OpenRecording c0 recid init vresp).state calls = true) :
    0 ≤ (run (OpenRecording c0 recid init vresp).state calls).m_currentPlayingRecordPosition
    ∧ (run (OpenRecording c0 recid init vresp).state calls).m_currentPlayingRecordPosition
      ≤ (run (OpenRecording c0 recid init vresp).state calls).m_currentPlayingRecordBytes := by
  refine ⟨Nat.zero_le _, run_le calls _ ?_ hwithin⟩
  rw [OpenRecording_success_position c0 recid init vresp hopen]
  exact Nat.zero_le _

/-- C6, witness: open with total 2000, read 3 bytes, seek to 100, read 2 bytes
while the total grows to 3000, seek to one before the end, close. -/
theorem position_le_total_of_withinTotal_witness :
    (run
        (OpenRecording
          { m_recid := "", m_currentPlayingRecordFrames := 0,
            m_currentPlayingRecordBytes := 0, m_currentPlayingRecordPosition := 0 }
          "42" true (some { returnCode := 0, frames := 10, bytes := 2000 })).state
        [Call.ReadRecording [0, 0, 0, 0] 4
            { connectionLost := false, tryReconnect := false, init1 := true, update := none,
              init2 := true, block := some [1, 2, 3] },
          Call.SeekRecording 100 0,
          Call.ReadRecording [0, 0, 0, 0] 4
            { connectionLost := false, tryReconnect := false, init1 := true,
              update := some (12, 3000), init2 := true, block := some [1, 2] },
          Call.SeekRecording (-1) 2,
          Call.CloseRecording true]).m_currentPlayingRecordPosition
      ≤ (run
        (OpenRecording
          { m_recid := "", m_currentPlayingRecordFrames := 0,
            m_currentPlayingRecordBytes := 0, m_currentPlayingRecordPosition := 0 }
          "42" true (some { returnCode := 0, frames := 10, bytes := 2000 })).state
        [Call.ReadRecording [0, 0, 0, 0] 4
            { connectionLost := false, tryReconnect := false, init1 := true, update := none,
              init2 := true, block := some [1, 2, 3] },
          Call.SeekRecording 100 0,
          Call.ReadRecording [0, 0, 0, 0] 4
            { connectionLost := false, tryReconnect := false, init1 := true,
              update := some (12, 3000), init2 := true, block := some [1, 2] },
          Call.SeekRecording (-1) 2,
          Call.CloseRecording true]).m_currentPlayingRecordBytes :=
  (position_le_total_of_withinTotal
    { m_recid := "", m_currentPlayingRecordFrames := 0,
      m_currentPlayingRecordBytes := 0, m_currentPlayingRecordPosition := 0 }
    "42" true (some { returnCode := 0, frames := 10, bytes := 2000 })
    [Call.ReadRecording [0, 0, 0, 0] 4
        { connectionLost := false, tryReconnect := false, init1 := true, update := none,
          init2 := true, block := some [1, 2, 3] },
      Call.SeekRecording 100 0,
      Call.ReadRecording [0, 0, 0, 0] 4
        { connectionLost := false, tryReconnect := false, init1 := true,
          update := some (12, 3000), init2 := true, block := some [1, 2] },
      Call.SeekRecording (-1) 2,
      Call.CloseRecording true]
    (by decide) (by decide)).2

/-! ## The recording stream: reading -/

/-- C7: when the connection is not lost and the position equals the total,
`ReadRecording` returns 0, issues no request (neither the size update nor the
block fetch), and leaves the members and the buffer as they were, for every
buffer size. -/
theorem ReadRecording_at_end (c : RecordingStream) (buf : List Nat) (buf_size : Nat)
    (env : ReadEnv) (hup : env.connectionLost = false)
    (hend : c.m_currentPlayingRecordPosition = c.m_currentPlayingRecordBytes) :
    ReadRecording c buf buf_size env = { ret := 0, state := c, buf := buf, requests := [] } := by
  have hge : c.m_currentPlayingRecordPosition ≥ c.m_currentPlayingRecordBytes := by omega
  simp [ReadRecording, hup, hge]

/-- C7, witness: total 2000, position 2000, a server that would answer both
requests. -/
theorem ReadRecording_at_end_witness :
    ReadRecording
        { m_recid := "42", m_currentPlayingRecordFrames := 10,
          m_currentPlayingRecordBytes := 2000, m_currentPlayingRecordPosition := 2000 }
        [9, 9] 2
        { connectionLost := false, tryReconnect := false, init1 := true,
          update := some (10, 2000), init2 := true, block := some [1] }
      = { ret := 0
          state :=
            { m_recid := "42", m_currentPlayingRecordFrames := 10,
              m_currentPlayingRecordBytes := 2000, m_currentPlayingRecordPosition := 2000 }
          buf := [9, 9]
          requests := [] } :=
  ReadRecording_at_end
    { m_recid := "42", m_currentPlayingRecordFrames := 10,
      m_currentPlayingRecordBytes := 2000, m_currentPlayingRecordPosition := 2000 }
    [9, 9] 2
    { connectionLost := false, tryReconnect := false, init1 := true,
      update := some (10, 2000), init2 := true, block := some [1] }
    rfl rfl

theorem toI32_le (n : Nat) : toI32 n ≤ (n : Int) := by
  unfold toI32
  split <;> omega

theorem toI32_of_lt (n : Nat) (h : n < 2 ^ 31) : toI32 n = (n : Int) := by
  unfold toI32
  split <;> omega

theorem ReadRecording_accepted (c : RecordingStream) (buf : List Nat) (buf_size : Nat)
    (env : ReadEnv) (data : List Nat)
    (hreach : ¬ (env.connectionLost = true ∧ env.tryReconnect = false))
    (hpos : c.m_currentPlayingRecordPosition < c.m_currentPlayingRecordBytes)
    (hinit2 : env.init2 = true) (hblock : env.block = some data)
    (hlen : data.length ≤ buf_size) :
    (ReadRecording c buf buf_size env).ret = toI32 data.length
    ∧ (ReadRecording c buf buf_size env).state.m_currentPlayingRecordPosition
        = (c.m_currentPlayingRecordPosition + data.length) % 2 ^ 64
    ∧ (ReadRecording c buf buf_size env).buf = data ++ buf.drop data.length := by
  have hp := ReadRecording_update_position c env
  have hnge : ¬ c.m_currentPlayingRecordPosition ≥ c.m_currentPlayingRecordBytes := by omega
  have hi2 : ¬ env.init2 = false := by simp [hinit2]
  have hngt : ¬ data.length > buf_size := by omega
  unfold ReadRecording
  rw [if_neg hreach, if_neg hnge]
  simp only [if_neg hi2, hblock, if_neg hngt, hp, and_self]

theorem ReadRecording_refused (c : RecordingStream) (buf : List Nat) (buf_size : Nat)
    (env : ReadEnv) (data : List Nat)
    (hreach : ¬ (env.connectionLost = true ∧ env.tryReconnect = false))
    (hpos : c.m_currentPlayingRecordPosition < c.m_currentPlayingRecordBytes)
    (hinit2 : env.init2 = true) (hblock : env.block = some data)
    (hlen : data.length > buf_size) :
    (ReadRecording c buf buf_size env).ret = 0
    ∧ (ReadRecording c buf buf_size env).buf = buf
    ∧ (ReadRecording c buf buf_size env).state.m_currentPlayingRecordPosition
        = c.m_currentPlayingRecordPosition := by
  have hp := ReadRecording_update_position c env
  have hnge : ¬ c.m_currentPlayingRecordPosition ≥ c.m_currentPlayingRecordBytes := by omega
  have hi2 : ¬ env.init2 = false := by simp [hinit2]
  unfold ReadRecording
  rw [if_neg hreach, if_neg hnge]
  simp only [if_neg hi2, hblock, if_pos hlen, hp, and_self]

/-- C8, counterexample: with total `2^64 - 1` and position `2^64 - 2`, a block
of 2 bytes read into a buffer of 2 moves the position to 0, not up by 2; and a
block of `2^31` bytes read into a buffer of `2^31` bytes returns `-2^31`. -/
theorem ReadRecording_wraps :
    (ReadRecording
        { m_recid := "r", m_currentPlayingRecordFrames := 1,
          m_currentPlayingRecordBytes := 2 ^ 64 - 1,
          m_currentPlayingRecordPosition := 2 ^ 64 - 2 }
        [0, 0] 2
        { connectionLost := false, tryReconnect := false, init1 := true, update := none,
          init2 := true, block := some [1, 2] }).state.m_currentPlayingRecordPosition = 0
    ∧ (ReadRecording
        { m_recid := "r", m_currentPlayingRecordFrames := 1,
          m_currentPlayingRecordBytes := 2 ^ 32, m_currentPlayingRecordPosition := 0 }
        (List.replicate (2 ^ 31) 0) (2 ^ 31)
        { connectionLost := false, tryReconnect := false, init1 := true, update := none,
          init2 := true, block := some (List.replicate (2 ^ 31) 1) }).ret = -2 ^ 31 := by
  constructor
  · decide
  · have h := (ReadRecording_accepted
      { m_recid := "r", m_currentPlayingRecordFrames := 1,
        m_currentPlayingRecordBytes := 2 ^ 32, m_currentPlayingRecordPosition := 0 }
      (List.replicate (2 ^ 31) 0) (2 ^ 31)
      { connectionLost := false, tryReconnect := false, init1 := true, update := none,
        init2 := true, block := some (List.replicate (2 ^ 31) 1) }
      (List.replicate (2 ^ 31) 1) (by decide) (by decide) rfl rfl
      (Nat.le_of_eq (List.length_replicate _ _))).1
    rw [h, List.length_replicate]
    decide

/-- C8, amended: a `ReadRecording` that reaches the block fetch and gets a
response of `n` bytes.  If `n ≤ buf_size`: it returns `n` converted to `int`,
which is `n` when `n < 2^31`; the position becomes `(position + n) mod 2^64`,
which is `position + n` when that is below `2^64`; the first `n` bytes of the
buffer are the block.  If `n > buf_size`: it returns 0 and leaves buffer and
position as they were.  The returned value never exceeds `buf_size`. -/
theorem ReadRecording_block (c : RecordingStream) (buf : List Nat) (buf_size : Nat)
    (env : ReadEnv) (data : List Nat)
    (hreach : ¬ (env.connectionLost = true ∧ env.tryReconnect = false))
    (hpos : c.m_currentPlayingRecordPosition < c.m_currentPlayingRecordBytes)
    (hinit2 : env.init2 = true) (hblock : env.block = some data) :
    (data.length ≤ buf_size →
        (ReadRecording c buf buf_size env).ret = toI32 data.length
        ∧ (data.length < 2 ^ 31 → (ReadRecording c buf buf_size env).ret = (data.length : Int))
        ∧ (ReadRecording c buf buf_size env).state.m_currentPlayingRecordPosition
            = (c.m_currentPlayingRecordPosition + data.length) % 2 ^ 64
        ∧ (c.m_currentPlayingRecordPosition + data.length < 2 ^ 64 →
            (ReadRecording c buf buf_size env).state.m_currentPlayingRecordPosition
              = c.m_currentPlayingRecordPosition + data.length)
        ∧ (ReadRecording c buf buf_size env).buf = data ++ buf.drop data.length)
    ∧ (data.length > buf_size →
        (ReadRecording c buf buf_size env).ret = 0
        ∧ (ReadRecording c buf buf_size env).buf = buf
        ∧ (ReadRecording c buf buf_size env).state.m_currentPlayingRecordPosition
            = c.m_currentPlayingRecordPosition)
    ∧ (ReadRecording c buf buf_size env).ret ≤ (buf_size : Int) := by
  refine ⟨fun hle => ?_, fun hgt => ?_, ?_⟩
  · have hR := ReadRecording_accepted c buf buf_size env data hreach hpos hinit2 hblock hle
    refine ⟨hR.1, fun hsmall => ?_, hR.2.1, fun hfit => ?_, hR.2.2⟩
    · rw [hR.1]
      exact toI32_of_lt _ hsmall
    · rw [hR.2.1]
      exact Nat.mod_eq_of_lt hfit
  · exact ReadRecording_refused c buf buf_size env data hreach hpos hinit2 hblock hgt
  · by_cases hlen : data.length > buf_size
    · rw [(ReadRecording_refused c buf buf_size env data hreach hpos hinit2 hblock hlen).1]
      exact Int.ofNat_nonneg _
    · have hle : data.length ≤ buf_size := by omega
      rw [(ReadRecording_accepted c buf buf_size env data hreach hpos hinit2 hblock hle).1]
      have := toI32_le data.length
      omega

/-- C8, witness: total 2000, position 0, a buffer of 4 and a short block of 3
bytes. -/
theorem ReadRecording_block_witness :
    (ReadRecording
        { m_recid := "42", m_currentPlayingRecordFrames := 10,
          m_currentPlayingRecordBytes := 2000, m_currentPlayingRecordPosition := 0 }
        [0, 0, 0, 0] 4
        { connectionLost := false, tryReconnect := false, init1 := true, update := none,
          init2 := true, block := some [1, 2, 3] }).ret = 3
    ∧ (ReadRecording
        { m_recid := "42", m_currentPlayingRecordFrames := 10,
          m_currentPlayingRecordBytes := 2000, m_currentPlayingRecordPosition := 0 }
        [0, 0, 0, 0] 4
        { connectionLost := false, tryReconnect := false, init1 := true, update := none,
          init2 := true, block := some [1, 2, 3] }).state.m_currentPlayingRecordPosition
      = 0 + 3 :=
  have h := ReadRecording_block
    { m_recid := "42", m_currentPlayingRecordFrames := 10,
      m_currentPlayingRecordBytes := 2000, m_currentPlayingRecordPosition := 0 }
    [0, 0, 0, 0] 4
    { connectionLost := false, tryReconnect := false, init1 := true, update := none,
      init2 := true, block := some [1, 2, 3] }
    [1, 2, 3] (by decide) (by decide) rfl rfl
  ⟨(h.1 (by decide)).2.1 (by decide), (h.1 (by decide)).2.2.2.1 (by decide)⟩

/-! ## The recording stream: opening and closing -/

/-- What `OpenRecording` does when the request is answered: with return code
OK the call returns true and the members become the id, the reported totals
and position 0; with another return code it returns false and the id is
empty afterwards, whatever the members were. -/
theorem OpenRecording_answered (c : RecordingStream) (recid : String) (r : OpenReply) :
    (r.returnCode = XVDR_RET_OK →
        (OpenRecording c recid true (some r)).ret = true
        ∧ (OpenRecording c recid true (some r)).state
          = { m_recid := recid
              m_currentPlayingRecordFrames := r.frames
              m_currentPlayingRecordBytes := r.bytes
              m_currentPlayingRecordPosition := 0 })
    ∧ (r.returnCode ≠ XVDR_RET_OK →
        (OpenRecording c recid true (some r)).ret = false
        ∧ (OpenRecording c recid true (some r)).state.m_recid = "") := by
  constructor
  · intro hok
    simp [OpenRecording, hok]
  · intro hbad
    simp [OpenRecording, hbad]

/-- C9: evaluation at the failing input.  Recording "old" is open; an
`OpenRecording("new")` that gets no response returns false and leaves the
stored id "old" in place, where an open answered with an error code clears
it. -/
theorem OpenRecording_no_response_keeps_recid :
    OpenRecording
        { m_recid := "old", m_currentPlayingRecordFrames := 10,
          m_currentPlayingRecordBytes := 2000, m_currentPlayingRecordPosition := 500 }
        "new" true none
      = { ret := false
          state :=
            { m_recid := "old", m_currentPlayingRecordFrames := 10,
              m_currentPlayingRecordBytes := 2000, m_currentPlayingRecordPosition := 500 }
          requests := [Request.XVDR_RECSTREAM_OPEN "new"] }
    ∧ (OpenRecording
        { m_recid := "old", m_currentPlayingRecordFrames := 10,
          m_currentPlayingRecordBytes := 2000, m_currentPlayingRecordPosition := 500 }
        "new" true (some { returnCode := 1, frames := 0, bytes := 0 })).state.m_recid = "" := by
  decide

/-- C10, counterexample: closing the open recording "42" at position 500 of
2000 clears the id and leaves position 500, total 2000 and 10 frames. -/
theorem CloseRecording_keeps_position_and_total :
    CloseRecording
        { m_recid := "42", m_currentPlayingRecordFrames := 10,
          m_currentPlayingRecordBytes := 2000, m_currentPlayingRecordPosition := 500 }
        true
      = { ret := true
          state :=
            { m_recid := "", m_currentPlayingRecordFrames := 10,
              m_currentPlayingRecordBytes := 2000, m_currentPlayingRecordPosition := 500 }
          requests := [Request.XVDR_RECSTREAM_CLOSE] } := by
  decide

/-- C10, amended: on a stream with an empty recording id `CloseRecording`
issues no request and changes nothing; on an open stream it issues the close
request and, whether or not that request succeeds, the recording id is empty
afterwards, while the position and both totals stay as they were. -/
theorem CloseRecording_clears_recid (c : RecordingStream) (readSuccess : Bool) :
    (c.m_recid = "" →
        CloseRecording c readSuccess = { ret := false, state := c, requests := [] })
    ∧ (c.m_recid ≠ "" →
        CloseRecording c readSuccess
          = { ret := readSuccess
              state :=
                { m_recid := ""
                  m_currentPlayingRecordFrames := c.m_currentPlayingRecordFrames
                  m_currentPlayingRecordBytes := c.m_currentPlayingRecordBytes
                  m_currentPlayingRecordPosition := c.m_currentPlayingRecordPosition }
              requests := [Request.XVDR_RECSTREAM_CLOSE] }) := by
  constructor
  · intro h
    simp [CloseRecording, h]
  · intro h
    simp [CloseRecording, h]

/-- C10, witness: the open recording "42", closed without a response. -/
theorem CloseRecording_clears_recid_witness :
    CloseRecording
        { m_recid := "42", m_currentPlayingRecordFrames := 10,
          m_currentPlayingRecordBytes := 2000, m_currentPlayingRecordPosition := 500 }
        false
      = { ret := false
          state :=
            { m_recid := "", m_currentPlayingRecordFrames := 10,
              m_currentPlayingRecordBytes := 2000, m_currentPlayingRecordPosition := 500 }
          requests := [Request.XVDR_RECSTREAM_CLOSE] } :=
  (CloseRecording_clears_recid
    { m_recid := "42", m_currentPlayingRecordFrames := 10,
      m_currentPlayingRecordBytes := 2000, m_currentPlayingRecordPosition := 500 }
    false).2 (by decide)

/-! ## The receive loop: status messages, reconnection, keep-alive -/

/-- What the `XVDR_STATUS_MESSAGE` branch does for every severity other than
2: exactly one notification, a warning for 1 and an info otherwise. -/
theorem Action_statusMessage_of_ne_two (type : Nat) (msgstr : String) (h2 : type ≠ 2) :
    Action_statusMessage type msgstr
      = [Effect.XVDRNotification
          (if type = 1 then Level.XVDR_WARNING else Level.XVDR_INFO) msgstr] := by
  unfold Action_statusMessage
  by_cases h1 : type = 1
  · simp [h1]
  · simp [h1, h2]

/-- C11: evaluation at the failing input.  A status message with severity 2
and text "disk full" makes the receive loop emit two notifications, an error
and then an info, both with that text. -/
theorem Action_statusMessage_error_notifies_twice :
    Action_statusMessage 2 "disk full"
      = [Effect.XVDRNotification Level.XVDR_ERROR "disk full",
         Effect.XVDRNotification Level.XVDR_INFO "disk full"] := by
  decide

theorem EnableStatusInterface_cached (c : SessionSettings) (direct : Bool) (env : SettingEnv) :
    (EnableStatusInterface c c.m_statusinterface direct env).state = c
    ∧ (EnableStatusInterface c c.m_statusinterface direct env).effects
      = if env.init = true then
          [readResultVia direct (SessionRequest.XVDR_ENABLESTATUSINTERFACE c.m_statusinterface)]
        else [] := by
  unfold EnableStatusInterface
  cases hi : env.init
  · simp
  · cases hv : env.vresp with
    | none => simp
    | some ret => by_cases hok : ret = XVDR_RET_OK <;> simp [hok]

theorem ChannelFilter_cached (c : SessionSettings) (direct : Bool) (env : SettingEnv) :
    (ChannelFilter c c.m_ftachannels c.m_nativelang c.m_caids direct env).state = c
    ∧ (ChannelFilter c c.m_ftachannels c.m_nativelang c.m_caids direct env).effects
      = if env.init = true then
          [readResultVia direct
            (SessionRequest.XVDR_CHANNELFILTER c.m_ftachannels c.m_nativelang c.m_caids)]
        else [] := by
  unfold ChannelFilter
  cases hi : env.init
  · simp
  · cases hv : env.vresp with
    | none => simp
    | some ret => by_cases hok : ret = XVDR_RET_OK <;> simp [hok]

theorem SetUpdateChannels_cached (c : SessionSettings) (direct : Bool) (env : SettingEnv) :
    (SetUpdateChannels c c.m_updatechannels direct env).state = c
    ∧ (SetUpdateChannels c c.m_updatechannels direct env).effects
      = if env.init = true then
          [readResultVia direct (SessionRequest.XVDR_UPDATECHANNELS c.m_updatechannels)]
        else [] := by
  unfold SetUpdateChannels
  cases hi : env.init
  · simp
  · cases hv : env.vresp with
    | none => simp
    | some ret => by_cases hok : ret = XVDR_RET_OK <;> simp [hok]

theorem OnReconnect_effects (c : SessionSettings) (XVDRGetLocalizedString : Nat → String)
    (envStatus envFilter envUpdate : SettingEnv) :
    OnReconnect c XVDRGetLocalizedString envStatus envFilter envUpdate
      = (c,
        [Effect.XVDRNotification Level.XVDR_INFO (XVDRGetLocalizedString 30045)]
          ++ (if envStatus.init = true then
                [Effect.Session_ReadResult
                  (SessionRequest.XVDR_ENABLESTATUSINTERFACE c.m_statusinterface)]
              else [])
          ++ (if envFilter.init = true then
                [Effect.Session_ReadResult
                  (SessionRequest.XVDR_CHANNELFILTER c.m_ftachannels c.m_nativelang c.m_caids)]
              else [])
          ++ (if envUpdate.init = true then
                [Effect.Session_ReadResult
                  (SessionRequest.XVDR_UPDATECHANNELS c.m_updatechannels)]
              else [])
          ++ [Effect.XVDRTriggerTimerUpdate, Effect.XVDRTriggerRecordingUpdate]) := by
  have h1 := EnableStatusInterface_cached c true envStatus
  have h2 := ChannelFilter_cached c true envFilter
  have h3 := SetUpdateChannels_cached c true envUpdate
  unfold OnReconnect
  simp only [h1.1, h1.2, h2.1, h2.2, h3.1, h3.2, readResultVia, if_true]

/-- C12, counterexample: a reconnection with cached settings (status
interface on, no filter, conditional access id 1, update method 2) whose three
requests are all answered OK issues the channel refresh trigger zero times;
the effects are the notification, the three direct requests, the timer
trigger and the recording trigger. -/
theorem OnReconnect_no_channel_trigger :
    (OnReconnect
        { m_statusinterface := true, m_ftachannels := false, m_nativelang := false,
          m_caids := [1], m_updatechannels := 2 }
        (fun _ => "reconnected")
        { init := true, vresp := some 0 } { init := true, vresp := some 0 }
        { init := true, vresp := some 0 }).2
      = [Effect.XVDRNotification Level.XVDR_INFO "reconnected",
         Effect.Session_ReadResult (SessionRequest.XVDR_ENABLESTATUSINTERFACE true),
         Effect.Session_ReadResult (SessionRequest.XVDR_CHANNELFILTER false false [1]),
         Effect.Session_ReadResult (SessionRequest.XVDR_UPDATECHANNELS 2),
         Effect.XVDRTriggerTimerUpdate,
         Effect.XVDRTriggerRecordingUpdate]
    ∧ List.count Effect.XVDRTriggerChannelUpdate
        (OnReconnect
          { m_statusinterface := true, m_ftachannels := false, m_nativelang := false,
            m_caids := [1], m_updatechannels := 2 }
          (fun _ => "reconnected")
          { init := true, vresp := some 0 } { init := true, vresp := some 0 }
          { init := true, vresp := some 0 }).2 = 0 := by
  decide

/-- C12, amended: whatever the server answers, `OnReconnect` leaves the
cached settings as they were and does exactly this, in order: it notifies the
host (info, localized string 30045); for each of the three session settings
(status interface, channel filter, update method) whose packet can be built
it replays the setting with its cached value over the direct path; it issues
the timer trigger and then the recording trigger.  So the timer trigger and
the recording trigger are issued exactly once each and the channel trigger
not at all, and nothing goes through the pending-call table. -/
theorem OnReconnect_replays_settings (c : SessionSettings)
    (XVDRGetLocalizedString : Nat → String) (envStatus envFilter envUpdate : SettingEnv) :
    OnReconnect c XVDRGetLocalizedString envStatus envFilter envUpdate
      = (c,
        [Effect.XVDRNotification Level.XVDR_INFO (XVDRGetLocalizedString 30045)]
          ++ (if envStatus.init = true then
                [Effect.Session_ReadResult
                  (SessionRequest.XVDR_ENABLESTATUSINTERFACE c.m_statusinterface)]
              else [])
          ++ (if envFilter.init = true then
                [Effect.Session_ReadResult
                  (SessionRequest.XVDR_CHANNELFILTER c.m_ftachannels c.m_nativelang c.m_caids)]
              else [])
          ++ (if envUpdate.init = true then
                [Effect.Session_ReadResult
                  (SessionRequest.XVDR_UPDATECHANNELS c.m_updatechannels)]
              else [])
          ++ [Effect.XVDRTriggerTimerUpdate, Effect.XVDRTriggerRecordingUpdate])
    ∧ (OnReconnect c XVDRGetLocalizedString envStatus envFilter envUpdate).1 = c
    ∧ List.count Effect.XVDRTriggerTimerUpdate
        (OnReconnect c XVDRGetLocalizedString envStatus envFilter envUpdate).2 = 1
    ∧ List.count Effect.XVDRTriggerRecordingUpdate
        (OnReconnect c XVDRGetLocalizedString envStatus envFilter envUpdate).2 = 1
    ∧ List.count Effect.XVDRTriggerChannelUpdate
        (OnReconnect c XVDRGetLocalizedString envStatus envFilter envUpdate).2 = 0
    ∧ (∀ vrp, Effect.ReadResult vrp
        ∉ (OnReconnect c XVDRGetLocalizedString envStatus envFilter envUpdate).2)
    ∧ (envStatus.init = true → envFilter.init = true → envUpdate.init = true →
        (OnReconnect c XVDRGetLocalizedString envStatus envFilter envUpdate).2
          = [Effect.XVDRNotification Level.XVDR_INFO (XVDRGetLocalizedString 30045),
             Effect.Session_ReadResult
              (SessionRequest.XVDR_ENABLESTATUSINTERFACE c.m_statusinterface),
             Effect.Session_ReadResult
              (SessionRequest.XVDR_CHANNELFILTER c.m_ftachannels c.m_nativelang c.m_caids),
             Effect.Session_ReadResult (SessionRequest.XVDR_UPDATECHANNELS c.m_updatechannels),
             Effect.XVDRTriggerTimerUpdate,
             Effect.XVDRTriggerRecordingUpdate]) := by
  refine ⟨OnReconnect_effects c XVDRGetLocalizedString envStatus envFilter envUpdate, ?_⟩
  rw [OnReconnect_effects]
  refine ⟨rfl, ?_, ?_, ?_, ?_, ?_⟩
  · cases envStatus.init <;> cases envFilter.init <;> cases envUpdate.init <;> simp
  · cases envStatus.init <;> cases envFilter.init <;> cases envUpdate.init <;> simp
  · cases envStatus.init <;> cases envFilter.init <;> cases envUpdate.init <;> simp
  · intro vrp
    cases envStatus.init <;> cases envFilter.init <;> cases envUpdate.init <;> simp
  · intro h1 h2 h3
    simp [h1, h2, h3]

/-- C12, witness: cached settings as above; the filter packet cannot be
built, the other two requests are sent and the update request is unanswered:
the notification, the two requests and the two triggers remain. -/
theorem OnReconnect_replays_settings_witness :
    OnReconnect
        { m_statusinterface := true, m_ftachannels := false, m_nativelang := false,
          m_caids := [1], m_updatechannels := 2 }
        (fun _ => "reconnected")
        { init := true, vresp := some 0 } { init := false, vresp := none }
        { init := true, vresp := none }
      = ({ m_statusinterface := true, m_ftachannels := false, m_nativelang := false,
           m_caids := [1], m_updatechannels := 2 },
        [Effect.XVDRNotification Level.XVDR_INFO "reconnected",
         Effect.Session_ReadResult (SessionRequest.XVDR_ENABLESTATUSINTERFACE true),
         Effect.Session_ReadResult (SessionRequest.XVDR_UPDATECHANNELS 2),
         Effect.XVDRTriggerTimerUpdate,
         Effect.XVDRTriggerRecordingUpdate]) :=
  (OnReconnect_replays_settings
    { m_statusinterface := true, m_ftachannels := false, m_nativelang := false,
      m_caids := [1], m_updatechannels := 2 }
    (fun _ => "reconnected")
    { init := true, vresp := some 0 } { init := false, vresp := none }
    { init := true, vresp := none }).1

theorem Action_keepAlive_of_due (now lastPing : Nat) (m_aborting connectionLost pingInit : Bool)
    (pingReply : Option ResponsePacket) (hdue : (now : Int) - (lastPing : Int) > 5) :
    Action_keepAlive none now lastPing [] m_aborting connectionLost pingInit pingReply
      = { lastPing := now % 2 ^ 32
          connectionLost :=
            if (SendPing pingInit pingReply).1 = false then
              SignalConnectionLost m_aborting connectionLost
            else connectionLost
          pinged := true
          effects := (SendPing pingInit pingReply).2 } := by
  simp [Action_keepAlive, hdue]

theorem Action_keepAlive_of_not_due (now lastPing : Nat) (m_queue : SMessages)
    (m_aborting connectionLost pingInit : Bool) (pingReply : Option ResponsePacket)
    (hnot : ¬ ((now : Int) - (lastPing : Int) > 5 ∧ m_queue = [])) :
    Action_keepAlive none now lastPing m_queue m_aborting connectionLost pingInit pingReply
      = { lastPing := lastPing, connectionLost := connectionLost, pinged := false,
          effects := [] } := by
  unfold Action_keepAlive
  by_cases hdue : (now : Int) - (lastPing : Int) > 5
  · have hq : ¬ m_queue = [] := fun h => hnot ⟨hdue, h⟩
    simp [hdue, hq]
  · simp [hdue]

/-- C13, counterexample: at time `2^32 + 10`, with an empty table, the ping
is issued and answered, and `lastPing` takes the value 10; one second later,
at time `2^32 + 11`, the next iteration without a message pings again. -/
theorem Action_keepAlive_pings_again :
    (Action_keepAlive none (2 ^ 32 + 10) 0 [] false false true
        (some { channelID := 1, requestID := 0, userData := [] })).pinged = true
    ∧ (Action_keepAlive none (2 ^ 32 + 10) 0 [] false false true
        (some { channelID := 1, requestID := 0, userData := [] })).lastPing = 10
    ∧ (Action_keepAlive none (2 ^ 32 + 11)
        (Action_keepAlive none (2 ^ 32 + 10) 0 [] false false true
          (some { channelID := 1, requestID := 0, userData := [] })).lastPing
        [] false false true
        (some { channelID := 1, requestID := 0, userData := [] })).pinged = true
    ∧ (Action_keepAlive none (2 ^ 32 + 11)
        (Action_keepAlive none (2 ^ 32 + 10) 0 [] false false true
          (some { channelID := 1, requestID := 0, userData := [] })).lastPing
        [] false false true
        (some { channelID := 1, requestID := 0, userData := [] })).effects
      = [Effect.Session_ReadResult SessionRequest.XVDR_PING] := by
  decide

/-- C13, amended: in an iteration of the receive loop whose read gave no
message, `SendPing()` is called if and only if more than 5 seconds have
passed since `lastPing` and the pending-call table is empty, and then (the
packet being built) exactly the ping request goes out on the direct path;
otherwise nothing is sent and nothing changes.  So no ping is issued while a
call is pending.  A ping stores the time modulo `2^32` in `lastPing`, so that
after a ping at a time below `2^32` no iteration within the next 5 seconds
pings again.  A ping that gets no reply while the connection is not aborting
marks the connection lost. -/
theorem Action_keepAlive_ping (now lastPing : Nat) (m_queue : SMessages)
    (m_aborting connectionLost pingInit : Bool) (pingReply : Option ResponsePacket) :
    ((Action_keepAlive none now lastPing m_queue m_aborting connectionLost pingInit pingReply).pinged = true
        ↔ ((now : Int) - (lastPing : Int) > 5 ∧ m_queue = []))
    ∧ (pingInit = true →
        ((Action_keepAlive none now lastPing m_queue m_aborting connectionLost pingInit pingReply).effects = [Effect.Session_ReadResult SessionRequest.XVDR_PING]
          ↔ ((now : Int) - (lastPing : Int) > 5 ∧ m_queue = [])))
    ∧ ((Action_keepAlive none now lastPing m_queue m_aborting connectionLost pingInit pingReply).pinged = false →
        (Action_keepAlive none now lastPing m_queue m_aborting connectionLost pingInit pingReply).effects = [] ∧ (Action_keepAlive none now lastPing m_queue m_aborting connectionLost pingInit pingReply).lastPing = lastPing ∧ (Action_keepAlive none now lastPing m_queue m_aborting connectionLost pingInit pingReply).connectionLost = connectionLost)
    ∧ (m_queue ≠ [] → (Action_keepAlive none now lastPing m_queue m_aborting connectionLost pingInit pingReply).pinged = false)
    ∧ ((Action_keepAlive none now lastPing m_queue m_aborting connectionLost pingInit pingReply).pinged = true → (Action_keepAlive none now lastPing m_queue m_aborting connectionLost pingInit pingReply).lastPing = now % 2 ^ 32)
    ∧ ((Action_keepAlive none now lastPing m_queue m_aborting connectionLost pingInit pingReply).pinged = true → now < 2 ^ 32 →
        ∀ (now2 : Nat) (q2 : SMessages) (a2 l2 i2 : Bool) (reply2 : Option ResponsePacket),
          now2 ≤ now + 5 →
          (Action_keepAlive none now2 (Action_keepAlive none now lastPing m_queue m_aborting connectionLost pingInit pingReply).lastPing q2 a2 l2 i2 reply2).pinged = false)
    ∧ ((Action_keepAlive none now lastPing m_queue m_aborting connectionLost pingInit pingReply).pinged = true → pingReply = none → m_aborting = false →
        (Action_keepAlive none now lastPing m_queue m_aborting connectionLost pingInit pingReply).connectionLost = true) := by
  by_cases hc : (now : Int) - (lastPing : Int) > 5 ∧ m_queue = []
  · obtain ⟨hdue, hq⟩ := hc
    subst hq
    rw [Action_keepAlive_of_due now lastPing m_aborting connectionLost pingInit pingReply hdue]
    refine ⟨?_, ?_, ?_, ?_, ?_, ?_, ?_⟩
    · simp [hdue]
    · intro hi
      simp [SendPing, hi, hdue]
    · intro h
      simp at h
    · intro h
      exact absurd rfl h
    · intro _
      rfl
    · intro _ hnow now2 q2 a2 l2 i2 reply2 hle
      have hmod : now % 2 ^ 32 = now := Nat.mod_eq_of_lt hnow
      have hnot : ¬ ((now2 : Int) - ((now % 2 ^ 32 : Nat) : Int) > 5 ∧ q2 = []) := by
        rw [hmod]
        intro h
        omega
      rw [Action_keepAlive_of_not_due now2 _ q2 a2 l2 i2 reply2 hnot]
    · intro _ hrep ha
      subst hrep
      subst ha
      cases pingInit <;> simp [SendPing, SignalConnectionLost]
  · rw [Action_keepAlive_of_not_due now lastPing m_queue m_aborting connectionLost pingInit
      pingReply hc]
    refine ⟨?_, ?_, ?_, ?_, ?_, ?_, ?_⟩
    · simp [hc]
    · intro _
      simp [hc]
    · intro _
      exact ⟨rfl, rfl, rfl⟩
    · intro _
      rfl
    · intro h
      simp at h
    · intro h
      simp at h
    · intro h
      simp at h

/-- C13, witness: at time 1006 with the last ping at 1000 and an empty table
the ping is issued, gets no reply and the connection is marked lost; an
iteration at time 1011 does not ping again. -/
theorem Action_keepAlive_ping_witness :
    (Action_keepAlive none 1006 1000 [] false false true none).pinged = true
    ∧ (Action_keepAlive none 1006 1000 [] false false true none).effects
        = [Effect.Session_ReadResult SessionRequest.XVDR_PING]
    ∧ (Action_keepAlive none 1006 1000 [] false false true none).connectionLost = true
    ∧ (Action_keepAlive none 1011
        (Action_keepAlive none 1006 1000 [] false false true none).lastPing
        [] false true true none).pinged = false :=
  have h := Action_keepAlive_ping 1006 1000 [] false false true none
  have hp := h.1.mpr ⟨by decide, rfl⟩
  ⟨hp, (h.2.1 rfl).mpr ⟨by decide, rfl⟩, h.2.2.2.2.2.2 hp rfl rfl,
    h.2.2.2.2.2.1 hp (by decide) 1011 [] false true true none (by decide)⟩

/-! ## Timers: the cached count -/

/-- C14, counterexample: with 3 in the cache, a reply carrying the count
`2^31` makes `GetTimersCount` return `-2^31` and store it. -/
theorem GetTimersCount_wraps :
    GetTimersCount 3 false true (some (2 ^ 31))
      = (-2 ^ 31, -2 ^ 31, [Effect.ReadResult SessionRequest.XVDR_TIMER_GETCOUNT]) := by
  decide

/-- C14, amended: while the connection is lost `GetTimersCount` returns the
cached count, sends nothing and leaves the cache; when its request gets no
response it returns the cached count and leaves the cache; when a response
carrying count `c` arrives it stores `c` converted to `int` and returns what
it stored, which is `c` whenever `c < 2^31`. -/
theorem GetTimersCount_cached (m_timercount : Int) (init : Bool) (vresp : Option Nat)
    (c : Nat) :
    GetTimersCount m_timercount true init vresp = (m_timercount, m_timercount, [])
    ∧ GetTimersCount m_timercount false true none
        = (m_timercount, m_timercount, [Effect.ReadResult SessionRequest.XVDR_TIMER_GETCOUNT])
    ∧ GetTimersCount m_timercount false true (some c)
        = (toI32 c, toI32 c, [Effect.ReadResult SessionRequest.XVDR_TIMER_GETCOUNT])
    ∧ (c < 2 ^ 31 →
        GetTimersCount m_timercount false true (some c)
          = ((c : Int), (c : Int), [Effect.ReadResult SessionRequest.XVDR_TIMER_GETCOUNT])) := by
  refine ⟨by simp [GetTimersCount], by simp [GetTimersCount], by simp [GetTimersCount], ?_⟩
  intro hc
  simp [GetTimersCount, toI32_of_lt c hc]

/-- C14, witness: 3 in the cache, a reply carrying the count 7. -/
theorem GetTimersCount_cached_witness :
    GetTimersCount 3 false true (some 7)
      = (7, 7, [Effect.ReadResult SessionRequest.XVDR_TIMER_GETCOUNT]) :=
  (GetTimersCount_cached 3 true none 7).2.2.2 (by decide)

/-! ## Timers: directory and title on the wire -/

theorem strrchr_of_not_mem (w : List Char) (ch : Char) (h : ch ∉ w) : strrchr w ch = none := by
  induction w with
  | nil => rfl
  | cons c rest ih =>
    have hrest : ch ∉ rest := fun hm => h (List.mem_cons_of_mem _ hm)
    have hc : ¬ c = ch := fun he => h (he ▸ List.mem_cons_self _ _)
    simp [strrchr, ih hrest, hc]

theorem strrchr_append_of_not_mem (a b : List Char) (ch : Char) (h : ch ∉ b) :
    strrchr (a ++ ch :: b) ch = some a.length := by
  induction a with
  | nil => simp [strrchr, strrchr_of_not_mem b ch h]
  | cons c rest ih => simp [strrchr, ih]

theorem map_separators_of_not_mem (t : List Char) (h1 : '/' ∉ t) (h2 : '\\' ∉ t) :
    t.map (fun ch => if ch = '/' ∨ ch = '\\' then '~' else ch) = t := by
  induction t with
  | nil => rfl
  | cons c rest ih =>
    have hc1 : ¬ c = '/' := fun he => h1 (he ▸ List.mem_cons_self _ _)
    have hc2 : ¬ c = '\\' := fun he => h2 (he ▸ List.mem_cons_self _ _)
    have ih2 := ih (fun hm => h1 (List.mem_cons_of_mem _ hm))
      (fun hm => h2 (List.mem_cons_of_mem _ hm))
    simp only [List.map_cons, hc1, hc2, or_self, if_false, ih2]

theorem map_separators_back (d : List Char) (h1 : '~' ∉ d) (h2 : '\\' ∉ d) :
    (d.map (fun ch => if ch = '/' ∨ ch = '\\' then '~' else ch)).map
        (fun c => if c = '~' then '/' else c) = d := by
  induction d with
  | nil => rfl
  | cons c rest ih =>
    have hc1 : ¬ c = '~' := fun he => h1 (he ▸ List.mem_cons_self _ _)
    have hc2 : ¬ c = '\\' := fun he => h2 (he ▸ List.mem_cons_self _ _)
    have ih2 := ih (fun hm => h1 (List.mem_cons_of_mem _ hm))
      (fun hm => h2 (List.mem_cons_of_mem _ hm))
    simp only [List.map_cons, ih2]
    by_cases hs : c = '/'
    · simp [hs]
    · simp [hs, hc1, hc2]

theorem AddTimer_path_of_directory (d t : List Char) (hne : d ≠ [])
    (hd3 : d.head? ≠ some '/') (hd4 : d.getLast? ≠ some '/') (ht0 : t ≠ []) :
    AddTimer_path d t
      = some ((d ++ '/' :: t).map (fun ch => if ch = '/' ∨ ch = '\\' then '~' else ch)) := by
  have hslash : ¬ d = ['/'] := by
    intro h
    rw [h] at hd3
    exact hd3 rfl
  have hlen : d.length > 0 := List.length_pos.mpr hne
  have hnil : ¬ (d ++ '/' :: t) = [] := by simp
  unfold AddTimer_path
  simp only [ne_eq, hne, not_false_eq_true, if_true, hslash, if_false, hd3, ite_self, hlen,
    hd4, and_self, ht0, List.append_assoc, List.singleton_append, List.map_eq_nil_iff, hnil]

theorem AddTimer_path_of_no_directory (t : List Char) (ht0 : t ≠ [])
    (ht1 : '/' ∉ t) (ht2 : '\\' ∉ t) : AddTimer_path [] t = some t := by
  unfold AddTimer_path
  simp [ht0, map_separators_of_not_mem t ht1 ht2]

theorem ReadTimerPacket_title_of_wire (d t : List Char) (h1 : '~' ∉ d) (h2 : '\\' ∉ d)
    (ht1 : '/' ∉ t) (ht2 : '\\' ∉ t) (ht3 : '~' ∉ t) :
    ReadTimerPacket_title
        ((d ++ '/' :: t).map (fun ch => if ch = '/' ∨ ch = '\\' then '~' else ch))
      = (t, d) := by
  have hwire : (d ++ '/' :: t).map (fun ch => if ch = '/' ∨ ch = '\\' then '~' else ch)
      = d.map (fun ch => if ch = '/' ∨ ch = '\\' then '~' else ch) ++ '~' :: t := by
    simp [map_separators_of_not_mem t ht1 ht2]
  rw [hwire]
  unfold ReadTimerPacket_title
  rw [strrchr_append_of_not_mem _ t '~' ht3]
  simp only [List.length_map]
  have hdrop : List.drop (d.length + 1)
      (d.map (fun ch => if ch = '/' ∨ ch = '\\' then '~' else ch) ++ '~' :: t) = t := by
    have hl : (d.map (fun ch => if ch = '/' ∨ ch = '\\' then '~' else ch) ++ ['~']).length
        = d.length + 1 := by simp
    have := List.drop_left
      (d.map (fun ch => if ch = '/' ∨ ch = '\\' then '~' else ch) ++ ['~']) t
    rw [hl] at this
    simpa using this
  have htake : List.take d.length
      (d.map (fun ch => if ch = '/' ∨ ch = '\\' then '~' else ch) ++ '~' :: t)
      = d.map (fun ch => if ch = '/' ∨ ch = '\\' then '~' else ch) := by
    have hl : (d.map (fun ch => if ch = '/' ∨ ch = '\\' then '~' else ch)).length
        = d.length := by simp
    have := List.take_left
      (d.map (fun ch => if ch = '/' ∨ ch = '\\' then '~' else ch)) ('~' :: t)
    rw [hl] at this
    exact this
  rw [hdrop, htake, map_separators_back d h1 h2]

/-- C15: for a directory `d` without `~` and backslash that neither starts nor
ends with `/`, and a non-empty title `t` without `/`, backslash and `~`, the
path `AddTimer` builds is `d`, `/`, `t` with every `/` and backslash replaced
by `~` (just `t` when `d` is empty), and `ReadTimerPacket` splits it back into
title `t` and directory `d`; a wire title without `~` is split into the whole
string as title and the empty directory. -/
theorem timer_title_round_trip (d t w : List Char)
    (hd1 : '~' ∉ d) (hd2 : '\\' ∉ d) (hd3 : d.head? ≠ some '/')
    (hd4 : d.getLast? ≠ some '/') (ht0 : t ≠ [])
    (ht1 : '/' ∉ t) (ht2 : '\\' ∉ t) (ht3 : '~' ∉ t) :
    (d ≠ [] → AddTimer_path d t
        = some ((d ++ '/' :: t).map (fun ch => if ch = '/' ∨ ch = '\\' then '~' else ch)))
    ∧ (d = [] → AddTimer_path d t = some t)
    ∧ (AddTimer_path d t).map ReadTimerPacket_title = some (t, d)
    ∧ ('~' ∉ w → ReadTimerPacket_title w = (w, [])) := by
  refine ⟨fun hne => AddTimer_path_of_directory d t hne hd3 hd4 ht0, ?_, ?_, ?_⟩
  · intro he
    subst he
    exact AddTimer_path_of_no_directory t ht0 ht1 ht2
  · by_cases hne : d = []
    · subst hne
      rw [AddTimer_path_of_no_directory t ht0 ht1 ht2]
      simp [ReadTimerPacket_title, strrchr_of_not_mem t '~' ht3]
    · rw [AddTimer_path_of_directory d t hne hd3 hd4 ht0]
      simp only [Option.map_some']
      rw [ReadTimerPacket_title_of_wire d t hd1 hd2 ht1 ht2 ht3]
  · intro hw
    simp [ReadTimerPacket_title, strrchr_of_not_mem w '~' hw]

/-- C15, witness: directory `tv/news`, title `late`, and the wire title
`plain`. -/
theorem timer_title_round_trip_witness :
    AddTimer_path ['t', 'v', '/', 'n', 'e', 'w', 's'] ['l', 'a', 't', 'e']
      = some ['t', 'v', '~', 'n', 'e', 'w', 's', '~', 'l', 'a', 't', 'e']
    ∧ (AddTimer_path ['t', 'v', '/', 'n', 'e', 'w', 's'] ['l', 'a', 't', 'e']).map
        ReadTimerPacket_title
      = some (['l', 'a', 't', 'e'], ['t', 'v', '/', 'n', 'e', 'w', 's'])
    ∧ ReadTimerPacket_title ['p', 'l', 'a', 'i', 'n'] = (['p', 'l', 'a', 'i', 'n'], []) :=
  have h := timer_title_round_trip ['t', 'v', '/', 'n', 'e', 'w', 's'] ['l', 'a', 't', 'e']
    ['p', 'l', 'a', 'i', 'n']
    (by decide) (by decide) (by decide) (by decide) (by decide) (by decide) (by decide)
    (by decide)
  ⟨h.1 (by decide), h.2.2.1, h.2.2.2 (by decide)⟩

end XVDR
